import Mathlib

/-!
# Verifiable AI decisions: fingerprinting, fallback ledger and request guard

A shallow embedding of `backend/server.js` (fingerprint computation, the
`/api/generate-proof` and `/api/verify` handlers with their process-local
fallback store), of `backend/security.js` (`createRateLimiter`,
`sanitizeInput`, `validateRequestSize`) and of `backend/errorHandler.js`
(`createErrorResponse`, `errorMiddleware`, `notFoundMiddleware`,
`validateContentType`), followed by theorems about them.

Conventions of the embedding.

* A JavaScript value that can reach the handlers is a JSON value (the request
  body is produced by `express.json()`), plus `undefined` for an absent
  property.  Strings are sequences of Unicode scalar values; numbers are the
  integers, rendered in decimal.  An object is the list of its own properties
  in enumeration order.
* `crypto.createHash('sha256')...digest('hex')` is a library function and is a
  parameter `sha256hex : String → String` of everything that hashes.
* `Date.now()`, `new Date().toISOString()` and the random suffix of a generated
  decision id are inputs of the functions that read them.
* The external ledger is a collaborator: what its calls return or throw is an
  input (`RegisterOutcome`, `VerifyOutcome`) of the handler that calls it.
-/

namespace VerifiableAI

/-! ## JavaScript values -/

/-- A JSON value, or `undefined`. -/
inductive JSValue where
  | undefined : JSValue
  | null : JSValue
  | bool (b : Bool) : JSValue
  | num (n : Int) : JSValue
  | str (s : String) : JSValue
  | arr (items : List JSValue) : JSValue
  | obj (props : List (String × JSValue)) : JSValue

/-- ToBoolean: `undefined`, `null`, `false`, `0` and the empty string are falsy. -/
def truthy : JSValue → Bool
  | .undefined => false
  | .null => false
  | .bool b => b
  | .num n => n != 0
  | .str s => s.data.length != 0
  | .arr _ => true
  | .obj _ => true

/-- The value of own property `key` in a property list (`undefined` when absent). -/
def getOwn : List (String × JSValue) → String → JSValue
  | [], _ => JSValue.undefined
  | (k, v) :: rest, key => if k = key then v else getOwn rest key

/-- Property read `v.key` for the keys the handlers read (none of them is
`length` or an index).  Reading a property of `undefined` or `null` throws a
TypeError (`none`); a primitive or an array has no such property. -/
def getMember : JSValue → String → Option JSValue
  | .undefined, _ => none
  | .null, _ => none
  | .obj props, key => some (getOwn props key)
  | _, _ => some JSValue.undefined

/-- `a || b`. -/
def jsOr (a b : JSValue) : JSValue := if truthy a then a else b

/-! ## JSON.stringify -/

/-- The double quote character. -/
def dquote : Char := Char.ofNat 34

/-- The reverse solidus. -/
def backslash : Char := Char.ofNat 92

/-- One lowercase hexadecimal digit. -/
def hexDigit (n : Nat) : Char :=
  if n < 10 then Char.ofNat (48 + n) else Char.ofNat (87 + n)

/-- UnicodeEscape: `\u` followed by four lowercase hexadecimal digits. -/
def unicodeEscape (c : Char) : List Char :=
  [backslash, 'u', hexDigit (c.toNat / 4096 % 16), hexDigit (c.toNat / 256 % 16),
    hexDigit (c.toNat / 16 % 16), hexDigit (c.toNat % 16)]

/-- What QuoteJSONString appends for one code point. -/
def quoteChar (c : Char) : List Char :=
  if c.toNat = 8 then [backslash, 'b']
  else if c.toNat = 9 then [backslash, 't']
  else if c.toNat = 10 then [backslash, 'n']
  else if c.toNat = 12 then [backslash, 'f']
  else if c.toNat = 13 then [backslash, 'r']
  else if c.toNat = 34 then [backslash, dquote]
  else if c.toNat = 92 then [backslash, backslash]
  else if c.toNat < 32 then unicodeEscape c
  else [c]

/-- The escaped code points of a string, without the surrounding quotes. -/
def quoteBody : List Char → List Char
  | [] => []
  | c :: cs => quoteChar c ++ quoteBody cs

/-- QuoteJSONString. -/
def quoteJSONString (s : String) : List Char :=
  dquote :: (quoteBody s.data ++ [dquote])

/-- Elements joined by a comma. -/
def joinComma : List (List Char) → List Char
  | [] => []
  | [x] => x
  | x :: y :: rest => x ++ ',' :: joinComma (y :: rest)

/-- A property list built from a replacer array keeps the first occurrence of
each name. -/
def uniqueNames : List String → List String
  | [] => []
  | k :: rest => k :: (uniqueNames rest).filter (fun x => x != k)

/-- The serialisation of a property that was already serialised, looked up by
name (`none` when the property is absent or serialises to `undefined`). -/
def lookupSerialized : List (String × Option (List Char)) → String → Option (List Char)
  | [], _ => none
  | (k, s) :: rest, key => if k = key then s else lookupSerialized rest key

/-- One member `"key":value` of a serialised object. -/
def member (key : String) (s : List Char) : List Char :=
  quoteJSONString key ++ ':' :: s

/-- The members of a serialised object: with a property list `K`, the names of
`K` in that order; without one, the own properties in enumeration order.
Properties whose value serialises to `undefined` are left out. -/
def objectMembers (K : Option (List String))
    (sprops : List (String × Option (List Char))) : List (List Char) :=
  match K with
  | some names => names.filterMap (fun P => (lookupSerialized sprops P).map (member P))
  | none => sprops.filterMap (fun kv => kv.2.map (member kv.1))

mutual
/-- SerializeJSONProperty with no gap and an optional property list `K`;
`none` is the result `undefined`.  The values of an object are serialised
first and the members are then picked from them, which is the same string as
serialising on demand because serialisation of JSON data has no effect. -/
def serializeJSONProperty (K : Option (List String)) : JSValue → Option (List Char)
  | .undefined => none
  | .null => some ['n', 'u', 'l', 'l']
  | .bool true => some ['t', 'r', 'u', 'e']
  | .bool false => some ['f', 'a', 'l', 's', 'e']
  | .num n => some (if n < 0 then '-' :: Nat.toDigits 10 n.natAbs else Nat.toDigits 10 n.natAbs)
  | .str s => some (quoteJSONString s)
  | .arr items => some ('[' :: (joinComma (serializeItems K items) ++ [']']))
  | .obj props =>
      some (Char.ofNat 123 :: (joinComma (objectMembers K (serializeProps K props))
        ++ [Char.ofNat 125]))
/-- The elements of an array; an element that serialises to `undefined` is
written `null`. -/
def serializeItems (K : Option (List String)) : List JSValue → List (List Char)
  | [] => []
  | v :: rest =>
      (serializeJSONProperty K v).getD ['n', 'u', 'l', 'l'] :: serializeItems K rest
/-- The own properties of an object, each with its serialised value. -/
def serializeProps (K : Option (List String)) :
    List (String × JSValue) → List (String × Option (List Char))
  | [] => []
  | (k, v) :: rest => (k, serializeJSONProperty K v) :: serializeProps K rest
end

/-- `JSON.stringify(value)` and `JSON.stringify(value, replacerArray)`; `none`
is the result `undefined`. -/
def jsonStringify (value : JSValue) (replacer : Option (List String)) : Option String :=
  (serializeJSONProperty (replacer.map uniqueNames) value).map String.mk

/-! ## Object.keys and Array.prototype.sort on strings -/

/-- `Object.keys` of a property list. -/
def objectKeys (props : List (String × JSValue)) : List String :=
  props.map Prod.fst

/-- Lexicographic comparison of two strings by code units (the names compared
here are ASCII). -/
def codeUnitsLt : List Char → List Char → Bool
  | _, [] => false
  | [], _ :: _ => true
  | a :: as, b :: bs => if a.toNat < b.toNat then true else if b.toNat < a.toNat then false
      else codeUnitsLt as bs

/-- Insertion of one name into a sorted list of names. -/
def insertSorted (k : String) : List String → List String
  | [] => [k]
  | x :: rest => if codeUnitsLt k.data x.data then k :: x :: rest else x :: insertSorted k rest

/-- `names.sort()` with the default comparison. -/
def sortNames : List String → List String
  | [] => []
  | k :: rest => insertSorted k (sortNames rest)

/-! ## Fingerprinting (server.js, lines 69-86) -/

/-- The `data` object of `generateFingerprint`; `none` when reading a property
of the metadata throws. -/
def fingerprintData (inputHash : String) (outputValue modelMetadata : JSValue) :
    Option (List (String × JSValue)) :=
  match getMember modelMetadata "model_id", getMember modelMetadata "model_checksum",
      getMember modelMetadata "inference_params" with
  | some modelId, some checksum, some params =>
      some [("input_hash", JSValue.str inputHash),
            ("output_value", outputValue),
            ("model_id", modelId),
            ("model_checksum", checksum),
            ("inference_params",
              match jsonStringify params none with
              | some s => JSValue.str s
              | none => JSValue.undefined)]
  | _, _, _ => none

/-- The property list of the outer `JSON.stringify` of `generateFingerprint`,
`Object.keys(data).sort()`, as it evaluates (see `sortedKeys_eq`). -/
def fingerprintKeys : Option (List String) :=
  some ["inference_params", "input_hash", "model_checksum", "model_id", "output_value"]

/-- The string `dataString` that `generateFingerprint` hashes. -/
def canonicalString (inputHash : String) (outputValue modelMetadata : JSValue) :
    Option String :=
  match fingerprintData inputHash outputValue modelMetadata with
  | some data => jsonStringify (JSValue.obj data) (some (sortNames (objectKeys data)))
  | none => none

/-- `generateFingerprint(inputHash, outputValue, modelMetadata)`; `none` when
the function throws. -/
def generateFingerprint (sha256hex : String → String) (inputHash : String)
    (outputValue modelMetadata : JSValue) : Option String :=
  (canonicalString inputHash outputValue modelMetadata).map sha256hex

/-- `hashInput(text)`: `update` accepts a string and throws a TypeError
(`none`) on any other JSON value. -/
def hashInput (sha256hex : String → String) : JSValue → Option String
  | .str s => some (sha256hex s)
  | _ => none

/-! ## HTTP responses -/

/-- A response sent with `res.status(status).json(body)` (`res.json(body)` is
status 200). -/
structure Response where
  status : Nat
  body : JSValue

/-- What a middleware or handler did: answered the request, or called `next()`. -/
inductive Outcome where
  | responded (r : Response) : Outcome
  | next : Outcome

/-- Field `key` of a response body. -/
def Response.field (r : Response) (key : String) : JSValue :=
  match r.body with
  | .obj props => getOwn props key
  | _ => JSValue.undefined

/-! ## The fallback store `mockFingerprints` (server.js, line 23) -/

/-- SameValueZero on the keys of a `Map`.  Primitives are compared by value; an
array or object is a reference, and the one parsed from a request body is
fresh, so it equals no key already in the map. -/
def sameValueZero : JSValue → JSValue → Bool
  | .undefined, .undefined => true
  | .null, .null => true
  | .bool a, .bool b => a == b
  | .num a, .num b => a == b
  | .str a, .str b => a == b
  | _, _ => false

/-- The map from decision id to fingerprint, in insertion order. -/
abbrev MockStore := List (JSValue × String)

/-- `Map.prototype.get`; `none` is `undefined`. -/
def mapGet : MockStore → JSValue → Option String
  | [], _ => none
  | (k, v) :: rest, key => if sameValueZero k key then some v else mapGet rest key

/-- `Map.prototype.set`: the entry of an existing key is overwritten in place,
a new key is appended. -/
def mapSet : MockStore → JSValue → String → MockStore
  | [], key, v => [(key, v)]
  | (k, w) :: rest, key, v =>
      if sameValueZero k key then (k, v) :: rest else (k, w) :: mapSet rest key v

/-! ## The external ledger as seen by the handlers -/

/-- What `contract.registerDecision(...)` followed by `tx.wait()` did. -/
inductive RegisterOutcome where
  | registerThrows (message : JSValue) : RegisterOutcome
  | waitThrows (message : JSValue) : RegisterOutcome
  | confirmed (txHash : JSValue) : RegisterOutcome

/-- What `contract.verifyDecision(...)` followed by `contract.getDecision(...)`
did. -/
inductive VerifyOutcome where
  | verifyThrows (message : String) : VerifyOutcome
  | getThrows (isValid : Bool) (timestamp : String) (message : String) : VerifyOutcome
  | answered (isValid : Bool) (timestamp : String) (storedFingerprint : String) : VerifyOutcome

/-- `haystack.includes(needle)` on code point lists. -/
def includes : List Char → List Char → Bool
  | [], needle => needle.isEmpty
  | c :: cs, needle => needle.isPrefixOf (c :: cs) || includes cs needle

/-! ## POST /api/generate-proof (server.js, lines 130-184) -/

/-- The message of the TypeError the runtime throws; its text is the
runtime's and is not modelled. -/
def runtimeErrorMessage : JSValue := JSValue.str "TypeError"

/-- The id generated when the request supplies none: `decision-`, the clock in
milliseconds, `-`, and the random suffix. -/
def generatedDecisionId (nowMs : Nat) (randomSuffix : String) : String :=
  "decision-" ++ String.mk (Nat.toDigits 10 nowMs) ++ "-" ++ randomSuffix

/-- The answer of the `catch` block of a handler. -/
def failureResponse (error : String) : Response :=
  Response.mk 500 (.obj [("error", .str error), ("details", runtimeErrorMessage)])

/-- The handler of `POST /api/generate-proof`.  `contract` is `none` in local
mode and, in on-chain mode, what the ledger calls of this request do.  The
result is the fallback store after the request and the response. -/
def generateProofHandler (sha256hex : String → String) (contract : Option RegisterOutcome)
    (nowMs : Nat) (randomSuffix : String) (isoTime : String)
    (store : MockStore) (reqBody : JSValue) : MockStore × Response :=
  match getMember reqBody "input_text", getMember reqBody "output_value",
      getMember reqBody "model_metadata", getMember reqBody "decision_id" with
  | some input_text, some output_value, some model_metadata, some decision_id =>
    if !truthy input_text || !truthy output_value || !truthy model_metadata then
      (store, Response.mk 400 (.obj
        [("error", .str "input_text, output_value, and model_metadata are required")]))
    else
      match hashInput sha256hex input_text with
      | none => (store, failureResponse "Failed to generate proof")
      | some inputHash =>
        match generateFingerprint sha256hex inputHash output_value model_metadata with
        | none => (store, failureResponse "Failed to generate proof")
        | some fingerprint =>
          let decisionId := jsOr decision_id (.str (generatedDecisionId nowMs randomSuffix))
          let ledger : MockStore × JSValue × JSValue :=
            match contract with
            | some (.confirmed hash) => (store, hash, JSValue.null)
            | some (.registerThrows message) => (store, JSValue.null, message)
            | some (.waitThrows message) => (store, JSValue.null, message)
            | none => (mapSet store decisionId fingerprint, JSValue.null, JSValue.null)
          let txHash := ledger.2.1
          let blockchainError := ledger.2.2
          (ledger.1, Response.mk 200 (.obj
            [("success", .bool true),
             ("decision_id", decisionId),
             ("fingerprint", .str fingerprint),
             ("input_hash", .str inputHash),
             ("stored_on_blockchain", .bool (truthy txHash)),
             ("transaction_hash", txHash),
             ("blockchain_error", blockchainError),
             ("timestamp", .str isoTime)]))
  | _, _, _, _ => (store, failureResponse "Failed to generate proof")

/-! ## POST /api/verify (server.js, lines 186-254) -/

/-- The handler of `POST /api/verify`; it only reads the fallback store. -/
def verifyHandler (sha256hex : String → String) (contract : Option VerifyOutcome)
    (isoTime : String) (store : MockStore) (reqBody : JSValue) : Response :=
  match getMember reqBody "decision_id", getMember reqBody "input_text",
      getMember reqBody "output_value", getMember reqBody "model_metadata" with
  | some decision_id, some input_text, some output_value, some model_metadata =>
    if !truthy decision_id || !truthy input_text || !truthy output_value
        || !truthy model_metadata then
      Response.mk 400 (.obj
        [("error", .str "decision_id, input_text, output_value, and model_metadata are required")])
    else
      match hashInput sha256hex input_text with
      | none => failureResponse "Failed to verify decision"
      | some inputHash =>
        match generateFingerprint sha256hex inputHash output_value model_metadata with
        | none => failureResponse "Failed to verify decision"
        | some fingerprint =>
          -- (isValid, timestamp, blockchainError, storedFingerprint)
          let r : Bool × JSValue × JSValue × JSValue :=
            match contract with
            | some (.answered isValid ts stored) =>
                (isValid, .str ts, JSValue.null, .str stored)
            | some (.getThrows isValid ts message) =>
                (if includes message.data "not found".data
                    || includes message.data "Decision not found".data then false else isValid,
                  .str ts, .str message, JSValue.null)
            | some (.verifyThrows message) => (false, JSValue.null, .str message, JSValue.null)
            | none =>
                match mapGet store decision_id with
                | some storedFp =>
                    if truthy (.str storedFp) then
                      (storedFp == fingerprint, JSValue.null,
                        .str "Blockchain not connected - running in mock mode",
                        .str ("0x" ++ storedFp))
                    else
                      (false, JSValue.null, .str "Decision not found in mock storage",
                        JSValue.null)
                | none =>
                    (false, JSValue.null, .str "Decision not found in mock storage",
                      JSValue.null)
          Response.mk 200 (.obj
            [("success", .bool true),
             ("decision_id", decision_id),
             ("provided_fingerprint", .str fingerprint),
             ("stored_fingerprint", r.2.2.2),
             ("is_valid", .bool r.1),
             ("timestamp", r.2.1),
             ("blockchain_connected", .bool contract.isSome),
             ("blockchain_error", r.2.2.1),
             ("verification_time", .str isoTime)])
  | _, _, _, _ => failureResponse "Failed to verify decision"

/-! ## createRateLimiter (security.js, lines 1-28) -/

/-- The two values a limiter closes over. -/
structure RateLimiter where
  windowMsValue : Int
  maxRequestsValue : Int

/-- `value || fallback` on an optional number: `undefined` (`none`) and `0` are
falsy. -/
def orDefault (value : Option Int) (fallback : Int) : Int :=
  match value with
  | some v => if v != 0 then v else fallback
  | none => fallback

/-- `createRateLimiter(windowMs, maxRequests)`. -/
def createRateLimiter (windowMs maxRequests : Option Int) : RateLimiter :=
  RateLimiter.mk (orDefault windowMs (15 * 60 * 1000)) (orDefault maxRequests 100)

/-- The map `requestCounts` from identity to its recorded timestamps. -/
abbrev RequestCounts := List (String × List Int)

/-- `requestCounts.get(ip)`; `none` is `undefined`. -/
def countsGet : RequestCounts → String → Option (List Int)
  | [], _ => none
  | (k, v) :: rest, ip => if k = ip then some v else countsGet rest ip

/-- `requestCounts.set(ip, value)`. -/
def countsSet : RequestCounts → String → List Int → RequestCounts
  | [], ip, v => [(ip, v)]
  | (k, w) :: rest, ip, v => if k = ip then (k, v) :: rest else (k, w) :: countsSet rest ip v

/-- The timestamps of `requests` the check at `now` keeps:
`requests.filter(time => time > windowStart)`. -/
def recentRequests (limiter : RateLimiter) (requests : List Int) (now : Int) : List Int :=
  requests.filter (fun time => decide (time > now - limiter.windowMsValue))

/-- The answer of the limiter to a request over the quota. -/
def tooManyRequests : Response :=
  Response.mk 429 (.obj
    [("error", .str "Too many requests from this IP, please try again later.")])

/-- One run of the middleware returned by `createRateLimiter` for the identity
`ip` at clock value `now`: the map afterwards and what the middleware did. -/
def rateLimit (limiter : RateLimiter) (counts : RequestCounts) (ip : String) (now : Int) :
    RequestCounts × Outcome :=
  let counts1 := if (countsGet counts ip).isNone then countsSet counts ip [] else counts
  let requests := (countsGet counts1 ip).getD []
  let recent := recentRequests limiter requests now
  if (recent.length : Int) ≥ limiter.maxRequestsValue then
    (counts1, Outcome.responded tooManyRequests)
  else
    (countsSet counts1 ip (recent ++ [now]), Outcome.next)

/-- Successive runs of the middleware, one for each (identity, clock value) of
`checks` in order: the map afterwards and what each run did. -/
def rateLimitRun (limiter : RateLimiter) :
    RequestCounts → List (String × Int) → RequestCounts × List Outcome
  | counts, [] => (counts, [])
  | counts, (ip, now) :: rest =>
      ((rateLimitRun limiter (rateLimit limiter counts ip now).1 rest).1,
        (rateLimit limiter counts ip now).2
          :: (rateLimitRun limiter (rateLimit limiter counts ip now).1 rest).2)

/-- Whether a run of a middleware called `next()`. -/
def Outcome.isNext : Outcome → Bool
  | Outcome.next => true
  | Outcome.responded _ => false

/-- The status of the response a middleware sent, if it sent one. -/
def Outcome.status? : Outcome → Option Nat
  | Outcome.next => none
  | Outcome.responded r => some r.status

/-! ## Reading back an escaped string -/

/-- The value of one lowercase hexadecimal digit. -/
def hexValue (c : Char) : Nat :=
  if c.toNat < 58 then c.toNat - 48 else c.toNat - 87

/-- Reads one code point back from the front of an escaped string: the inverse
of `quoteChar`, used to show that escaping loses nothing. -/
def unquoteChar : List Char → Option (Char × List Char)
  | [] => none
  | c :: rest =>
    if c.toNat = 92 then
      match rest with
      | [] => none
      | e :: rest2 =>
        if e.toNat = 98 then some (Char.ofNat 8, rest2)
        else if e.toNat = 116 then some (Char.ofNat 9, rest2)
        else if e.toNat = 110 then some (Char.ofNat 10, rest2)
        else if e.toNat = 102 then some (Char.ofNat 12, rest2)
        else if e.toNat = 114 then some (Char.ofNat 13, rest2)
        else if e.toNat = 34 then some (Char.ofNat 34, rest2)
        else if e.toNat = 92 then some (Char.ofNat 92, rest2)
        else if e.toNat = 117 then
          match rest2 with
          | a :: b :: c2 :: d :: rest3 =>
              some (Char.ofNat (hexValue a * 4096 + hexValue b * 256 + hexValue c2 * 16
                + hexValue d), rest3)
          | _ => none
        else none
    else some (c, rest)

/-! ## A concrete digest function for instantiating the theorems -/

/-- A stand-in for the hash function with results of 64 characters: the text
reversed, padded with `0` and cut to 64 code points. -/
def sampleDigest (s : String) : String :=
  String.mk ((s.data.reverse ++ List.replicate 64 '0').take 64)

/-- Metadata as the inference collaborator returns it. -/
def sampleMetadata : List (String × JSValue) :=
  [("model_id", .str "radiology-v1.0"), ("model_checksum", .str "abc123"),
   ("inference_params", .obj [("temperature", .num 0), ("max_length", .num 512)])]

/-- The same metadata with its fields assembled in another order. -/
def sampleMetadataReordered : List (String × JSValue) :=
  [("model_checksum", .str "abc123"),
   ("inference_params", .obj [("temperature", .num 0), ("max_length", .num 512)]),
   ("model_id", .str "radiology-v1.0")]

/-- The sample metadata with another model id. -/
def sampleMetadataOtherModel : List (String × JSValue) :=
  [("model_id", .str "radiology-v2.0"), ("model_checksum", .str "abc123"),
   ("inference_params", .obj [("temperature", .num 0), ("max_length", .num 512)])]

/-- A generate-proof request for decision `d1`. -/
def sampleProofRequest : JSValue :=
  .obj [("input_text", .str "Patient reports mild cough"), ("output_value", .str "Low risk"),
    ("model_metadata", .obj sampleMetadata), ("decision_id", .str "d1")]

/-- A generate-proof request for decision `d1` with another output. -/
def sampleSecondProofRequest : JSValue :=
  .obj [("input_text", .str "Patient reports mild cough"), ("output_value", .str "High risk"),
    ("model_metadata", .obj sampleMetadata), ("decision_id", .str "d1")]

/-- A verify request for decision `d1` with the inputs of `sampleProofRequest`. -/
def sampleVerifyRequest : JSValue :=
  .obj [("decision_id", .str "d1"), ("input_text", .str "Patient reports mild cough"),
    ("output_value", .str "Low risk"), ("model_metadata", .obj sampleMetadata)]

/-- A verify request for decision `d1` with a tampered output. -/
def sampleTamperedRequest : JSValue :=
  .obj [("decision_id", .str "d1"), ("input_text", .str "Patient reports mild cough"),
    ("output_value", .str "High risk"), ("model_metadata", .obj sampleMetadata)]

/-! ## Number parsing and whitespace (used by security.js) -/

/-- WhiteSpace and LineTerminator code points: what `String.prototype.trim`
removes and `parseInt` skips. -/
def isJSWhiteSpace (c : Char) : Bool :=
  c.toNat = 9 || c.toNat = 10 || c.toNat = 11 || c.toNat = 12 || c.toNat = 13
    || c.toNat = 32 || c.toNat = 160 || c.toNat = 5760
    || (8192 ≤ c.toNat && c.toNat ≤ 8202)
    || c.toNat = 8232 || c.toNat = 8233 || c.toNat = 8239 || c.toNat = 8287
    || c.toNat = 12288 || c.toNat = 65279

/-- The value of `c` as a digit of the given radix, if it is one. -/
def digitValue (radix : Nat) (c : Char) : Option Nat :=
  if 48 ≤ c.toNat ∧ c.toNat ≤ 57 then
    (if c.toNat - 48 < radix then some (c.toNat - 48) else none)
  else if 97 ≤ c.toNat ∧ c.toNat ≤ 122 then
    (if c.toNat - 87 < radix then some (c.toNat - 87) else none)
  else if 65 ≤ c.toNat ∧ c.toNat ≤ 90 then
    (if c.toNat - 55 < radix then some (c.toNat - 55) else none)
  else none

/-- The value of the longest prefix of digits, continuing from the digits read
so far (`none`: no digit yet). -/
def parseDigits (radix : Nat) : Option Nat → List Char → Option Nat
  | acc, [] => acc
  | acc, c :: cs =>
      match digitValue radix c with
      | some v => parseDigits radix (some (acc.getD 0 * radix + v)) cs
      | none => acc

/-- `parseInt(text)` with no radix argument; `none` is NaN.  Leading white
space is skipped, a sign and a `0x` prefix are honoured, and the longest prefix
of digits is read.  The result is the exact integer. -/
def parseInt (text : String) : Option Int :=
  let s := text.data.dropWhile isJSWhiteSpace
  let negative := match s with
    | c :: _ => c.toNat == 45
    | [] => false
  let s1 := match s with
    | c :: rest => if c.toNat = 45 ∨ c.toNat = 43 then rest else s
    | [] => s
  let hex := match s1 with
    | a :: b :: _ => a.toNat == 48 && (b.toNat == 120 || b.toNat == 88)
    | _ => false
  let digits := if hex then parseDigits 16 none (s1.drop 2) else parseDigits 10 none s1
  digits.map (fun n => if negative then -(n : Int) else (n : Int))

/-- `text.trim()`. -/
def jsTrim (text : String) : String :=
  String.mk (((text.data.dropWhile isJSWhiteSpace).reverse.dropWhile isJSWhiteSpace).reverse)

/-! ## validateRequestSize and sanitizeInput (security.js, lines 30-53) -/

/-- The ceiling `maxSize` of `validateRequestSize`. -/
def maxSize : Nat := 10 * 1024 * 1024

/-- The answer of `validateRequestSize` to a request over the ceiling. -/
def payloadTooLarge : Response :=
  Response.mk 413 (.obj
    [("error", .str "Request payload too large"),
     ("maxSize", .str (String.mk (Nat.toDigits 10 (maxSize / 1024 / 1024)) ++ "MB"))])

/-- `validateRequestSize` on the `content-length` header of the request
(`none`: no such header). -/
def validateRequestSize (contentLengthHeader : Option String) : Outcome :=
  let text := match contentLengthHeader with
    | some h => if truthy (.str h) then h else "0"
    | none => "0"
  match parseInt text with
  | some contentLength =>
      if contentLength > (maxSize : Int) then Outcome.responded payloadTooLarge else Outcome.next
  | none => Outcome.next

/-- What `sanitizeInput` does to one value of the body. -/
def trimIfString : JSValue → JSValue
  | .str s => .str (jsTrim s)
  | v => v

/-- `sanitizeInput`: the request body afterwards and what the middleware did.
`Object.keys` of an object are its property names and those of an array its
indices. -/
def sanitizeInput (body : JSValue) : JSValue × Outcome :=
  match body with
  | .obj props => (.obj (props.map (fun kv => (kv.1, trimIfString kv.2))), Outcome.next)
  | .arr items => (.arr (items.map trimIfString), Outcome.next)
  | v => (v, Outcome.next)

/-! ## errorHandler.js -/

/-- Modelled from the spec: `HTTP_STATUS.INTERNAL_ERROR` of `config/constants`,
which is not among the sources; the reporter answers with the declared status
of the failure or 500 by default. -/
def HTTP_STATUS_INTERNAL_ERROR : JSValue := .num 500

/-- `createErrorResponse(error, defaultMessage)`; `none` when reading
`error.message` throws. -/
def createErrorResponse (error defaultMessage : JSValue) (isoTime : String) : Option JSValue :=
  match getMember error "message" with
  | some message =>
      some (.obj [("error", jsOr defaultMessage (.str "An error occurred")),
                  ("details", jsOr message (.str "Unknown error")),
                  ("timestamp", .str isoTime)])
  | none => none

/-- `errorMiddleware(error, req, res, next)`: the value given to `res.status`
and the body given to `json`; `none` when reading a property of `error`
throws. -/
def errorMiddleware (error : JSValue) (isoTime : String) : Option (JSValue × JSValue) :=
  match getMember error "statusCode", getMember error "message" with
  | some statusCode, some message =>
      match createErrorResponse error (jsOr message (.str "Internal server error")) isoTime with
      | some response => some (jsOr statusCode HTTP_STATUS_INTERNAL_ERROR, response)
      | none => none
  | _, _ => none

/-- `notFoundMiddleware(req, res)` for a request with the given path and
method. -/
def notFoundMiddleware (path method : JSValue) : Response :=
  Response.mk 404 (.obj [("error", .str "Route not found"), ("path", path), ("method", method)])

/-- `validateContentType` for a request with the given method and
`content-type` header (`none`: no such header). -/
def validateContentType (method : String) (contentType : Option String) : Outcome :=
  if method = "POST" ∨ method = "PUT" then
    match contentType with
    | some ct =>
        if !truthy (.str ct) || !includes ct.data "application/json".data then
          Outcome.responded (Response.mk 400 (.obj
            [("error", .str "Content-Type must be application/json")]))
        else Outcome.next
    | none =>
        Outcome.responded (Response.mk 400 (.obj
          [("error", .str "Content-Type must be application/json")]))
  else Outcome.next

/-! ## The service as a state machine over the fallback store -/

/-- One run of the verify handler in local mode, as a step on the fallback
store: the handler only calls `mockFingerprints.get`, so the store it leaves is
the store it found. -/
def verifyStep (sha256hex : String → String) (isoTime : String) (store : MockStore)
    (reqBody : JSValue) : MockStore × Response :=
  (store, verifyHandler sha256hex none isoTime store reqBody)

/-- The timestamps of the checks that identity `ip` made and the limiter
accepted, given the checks of a run and what the limiter did on each. -/
def acceptedTimes (ip : String) : List (String × Int) → List Outcome → List Int
  | (who, now) :: checks, o :: outcomes =>
      if who = ip ∧ o.isNext = true then now :: acceptedTimes ip checks outcomes
      else acceptedTimes ip checks outcomes
  | _, _ => []

/-- A generate-proof request that supplies no decision id. -/
def sampleProofRequestNoId : JSValue :=
  .obj [("input_text", .str "Patient reports mild cough"), ("output_value", .str "Low risk"),
    ("model_metadata", .obj sampleMetadata)]

/-- The sample metadata with the keys of inference_params in the other order. -/
def sampleMetadataParamsSwapped : List (String × JSValue) :=
  [("model_id", .str "radiology-v1.0"), ("model_checksum", .str "abc123"),
   ("inference_params", .obj [("max_length", .num 512), ("temperature", .num 0)])]

/-- The field names of a response body, in order (none for a body that is not
an object). -/
def bodyKeys : JSValue → List String
  | .obj props => objectKeys props
  | _ => []

/-- Field `key` of a body. -/
def bodyField (body : JSValue) (key : String) : JSValue :=
  match body with
  | .obj props => getOwn props key
  | _ => JSValue.undefined

/-! ## Lemmas on property lists -/

theorem getOwn_perm {props1 props2 : List (String × JSValue)} (hperm : props1.Perm props2)
    (hnodup : (objectKeys props1).Nodup) (key : String) :
    getOwn props1 key = getOwn props2 key := by
  induction hperm with
  | nil => rfl
  | cons x _ ih =>
    obtain ⟨k, v⟩ := x
    simp only [objectKeys, List.map_cons, List.nodup_cons] at hnodup
    simp only [getOwn]
    rw [ih hnodup.2]
  | swap x y l =>
    obtain ⟨k, v⟩ := x
    obtain ⟨k2, v2⟩ := y
    simp only [objectKeys, List.map_cons, List.nodup_cons, List.mem_cons] at hnodup
    have hne : k2 ≠ k := fun h => hnodup.1 (Or.inl h)
    simp only [getOwn]
    by_cases h1 : k2 = key
    · by_cases h2 : k = key
      · exact absurd (h1.trans h2.symm) hne
      · simp [h1, h2]
    · by_cases h2 : k = key
      · simp [h1, h2]
      · simp [h1, h2]
  | trans h12 _ ih1 ih2 =>
    have hnodup2 := (List.Perm.nodup_iff (List.Perm.map Prod.fst h12)).mp hnodup
    rw [ih1 hnodup, ih2 hnodup2]

/-! ## C1: the fingerprint does not depend on the order of the metadata fields -/

/-- C1: for every input hash, every output value and every two model-metadata
objects with the same properties listed in a different order (each name once),
`generateFingerprint` returns a digest, and the same one for both. -/
theorem generateFingerprint_field_order (sha256hex : String → String) (inputHash : String)
    (outputValue : JSValue) (meta1 meta2 : List (String × JSValue))
    (hperm : meta1.Perm meta2) (hnodup : (objectKeys meta1).Nodup) :
    (∃ digest, generateFingerprint sha256hex inputHash outputValue (.obj meta1) = some digest) ∧
    generateFingerprint sha256hex inputHash outputValue (.obj meta1)
      = generateFingerprint sha256hex inputHash outputValue (.obj meta2) := by
  constructor
  · simp [generateFingerprint, canonicalString, fingerprintData, getMember, jsonStringify,
      serializeJSONProperty]
  · simp only [generateFingerprint, canonicalString, fingerprintData, getMember,
      getOwn_perm hperm hnodup]
theorem hexValue_hexDigit : ∀ n, n < 32 →
    hexValue (hexDigit (n / 4096 % 16)) * 4096 + hexValue (hexDigit (n / 256 % 16)) * 256
      + hexValue (hexDigit (n / 16 % 16)) * 16 + hexValue (hexDigit (n % 16)) = n := by
  decide

theorem unquoteChar_quoteChar (c : Char) (rest : List Char) :
    unquoteChar (quoteChar c ++ rest) = some (c, rest) := by
  have hc : ∀ n, c.toNat = n → Char.ofNat n = c := fun n h => by rw [← h, Char.ofNat_toNat]
  unfold quoteChar
  split_ifs with h8 h9 h10 h12 h13 h34 h92 h32
  · simp [unquoteChar, backslash, ]; exact hc 8 h8
  · simp [unquoteChar, backslash, ]; exact hc 9 h9
  · simp [unquoteChar, backslash, ]; exact hc 10 h10
  · simp [unquoteChar, backslash, ]; exact hc 12 h12
  · simp [unquoteChar, backslash, ]; exact hc 13 h13
  · simp [unquoteChar, backslash, dquote, ]; exact hc 34 h34
  · simp [unquoteChar, backslash, ]; exact hc 92 h92
  · simp [unquoteChar, backslash, unicodeEscape, hexValue_hexDigit _ h32, Char.ofNat_toNat]
  · simp [unquoteChar, h92]

theorem quoteChar_append_inj {c d : Char} {r1 r2 : List Char}
    (h : quoteChar c ++ r1 = quoteChar d ++ r2) : c = d ∧ r1 = r2 := by
  have h2 := congrArg unquoteChar h
  rw [unquoteChar_quoteChar, unquoteChar_quoteChar] at h2
  simpa using h2

theorem quoteChar_ne_dquote (c : Char) (r1 r2 : List Char) :
    quoteChar c ++ r1 ≠ dquote :: r2 := by
  intro h
  have h2 := congrArg unquoteChar h
  rw [unquoteChar_quoteChar] at h2
  simp [unquoteChar, dquote] at h2
  obtain ⟨hc, -⟩ := h2
  subst hc
  simp [quoteChar, dquote, backslash] at h

theorem quoteBody_append_inj : ∀ (a b : List Char) (r1 r2 : List Char),
    quoteBody a ++ dquote :: r1 = quoteBody b ++ dquote :: r2 → a = b ∧ r1 = r2
  | [], [], r1, r2, h => by simpa [quoteBody] using h
  | [], d :: ds, r1, r2, h => by
      simp only [quoteBody, List.nil_append, List.append_assoc] at h
      exact absurd h.symm (quoteChar_ne_dquote _ _ _)
  | c :: cs, [], r1, r2, h => by
      simp only [quoteBody, List.nil_append, List.append_assoc] at h
      exact absurd h (quoteChar_ne_dquote _ _ _)
  | c :: cs, d :: ds, r1, r2, h => by
      simp only [quoteBody, List.append_assoc] at h
      obtain ⟨hcd, hrest⟩ := quoteChar_append_inj h
      obtain ⟨hcs, hr⟩ := quoteBody_append_inj cs ds r1 r2 hrest
      exact ⟨by rw [hcd, hcs], hr⟩

theorem quoteJSONString_append_inj {s t : String} {r1 r2 : List Char}
    (h : quoteJSONString s ++ r1 = quoteJSONString t ++ r2) : s = t ∧ r1 = r2 := by
  simp only [quoteJSONString, List.cons_append, List.append_assoc, List.singleton_append,
    List.cons.injEq, true_and] at h
  obtain ⟨hd, hr⟩ := quoteBody_append_inj _ _ _ _ h
  exact ⟨String.ext hd, hr⟩

theorem sortedKeys_eq (a b c d e : JSValue) :
    uniqueNames (sortNames (objectKeys [("input_hash", a), ("output_value", b), ("model_id", c),
      ("model_checksum", d), ("inference_params", e)]))
    = ["inference_params", "input_hash", "model_checksum", "model_id", "output_value"] := by
  have h : uniqueNames (sortNames ["input_hash", "output_value", "model_id", "model_checksum",
      "inference_params"])
    = ["inference_params", "input_hash", "model_checksum", "model_id", "output_value"] := by
    decide
  exact h


theorem canonicalString_eq (inputHash : String) (ov M vmi vmc vip : JSValue)
    (h1 : getMember M "model_id" = some vmi) (h2 : getMember M "model_checksum" = some vmc)
    (h3 : getMember M "inference_params" = some vip) :
    canonicalString inputHash ov M = some (String.mk (Char.ofNat 123 :: (joinComma
      (List.filterMap id
        [((jsonStringify vip none).map quoteJSONString).map (member "inference_params"),
         some (member "input_hash" (quoteJSONString inputHash)),
         (serializeJSONProperty fingerprintKeys vmc).map (member "model_checksum"),
         (serializeJSONProperty fingerprintKeys vmi).map (member "model_id"),
         (serializeJSONProperty fingerprintKeys ov).map (member "output_value")])
      ++ [Char.ofNat 125]))) := by
  simp only [canonicalString, fingerprintData, h1, h2, h3]
  rcases hp : serializeJSONProperty none vip with _ | sp <;>
    simp only [jsonStringify, hp, Option.map_none', Option.map_some'] <;> rfl
theorem member_append_inj {k k2 : String} {x y r1 r2 : List Char}
    (h : member k x ++ r1 = member k2 y ++ r2) : k = k2 ∧ x ++ r1 = y ++ r2 := by
  simp only [member, List.append_assoc, List.cons_append] at h
  obtain ⟨hk, hr⟩ := quoteJSONString_append_inj h
  simp only [List.cons.injEq, true_and] at hr
  exact ⟨hk, hr⟩

theorem member_quote_append_inj {k k2 a b : String} {r1 r2 : List Char}
    (h : member k (quoteJSONString a) ++ r1 = member k2 (quoteJSONString b) ++ r2) :
    a = b ∧ r1 = r2 :=
  quoteJSONString_append_inj (member_append_inj h).2

theorem canonicalString_strings_inj (inputHash : String) (ov ov2 mi mi2 mc mc2 : String)
    (M M2 p p2 : JSValue)
    (hmi : getMember M "model_id" = some (.str mi))
    (hmc : getMember M "model_checksum" = some (.str mc))
    (hp : getMember M "inference_params" = some p)
    (hmi2 : getMember M2 "model_id" = some (.str mi2))
    (hmc2 : getMember M2 "model_checksum" = some (.str mc2))
    (hp2 : getMember M2 "inference_params" = some p2)
    (heq : canonicalString inputHash (.str ov) M = canonicalString inputHash (.str ov2) M2) :
    ov = ov2 ∧ mi = mi2 ∧ mc = mc2 ∧ jsonStringify p none = jsonStringify p2 none := by
  rw [canonicalString_eq inputHash _ M _ _ _ hmi hmc hp,
    canonicalString_eq inputHash _ M2 _ _ _ hmi2 hmc2 hp2] at heq
  replace heq := congrArg String.data (Option.some.inj heq)
  simp only [List.cons.injEq, true_and,
    serializeJSONProperty, fingerprintKeys, Option.map_some'] at heq
  rcases he : jsonStringify p none with _ | e <;> rcases he2 : jsonStringify p2 none with _ | e2 <;>
    simp only [he, he2, Option.map_none', Option.map_some', List.filterMap_cons, id,
      List.filterMap_nil, joinComma, List.append_assoc, List.cons_append] at heq
  · obtain ⟨-, h1⟩ := member_quote_append_inj heq
    simp only [List.cons.injEq, true_and] at h1
    obtain ⟨h2, h3⟩ := member_quote_append_inj h1
    simp only [List.cons.injEq, true_and] at h3
    obtain ⟨h4, h5⟩ := member_quote_append_inj h3
    simp only [List.cons.injEq, true_and] at h5
    obtain ⟨h6, -⟩ := member_quote_append_inj h5
    exact ⟨h6, h4, h2, rfl⟩
  · have hk : "input_hash" = "inference_params" := (member_append_inj heq).1
    exact absurd hk (by decide)
  · have hk : "inference_params" = "input_hash" := (member_append_inj heq).1
    exact absurd hk (by decide)
  · obtain ⟨h0, h1⟩ := member_quote_append_inj heq
    simp only [List.cons.injEq, true_and] at h1
    obtain ⟨-, h1⟩ := member_quote_append_inj h1
    simp only [List.cons.injEq, true_and] at h1
    obtain ⟨h2, h3⟩ := member_quote_append_inj h1
    simp only [List.cons.injEq, true_and] at h3
    obtain ⟨h4, h5⟩ := member_quote_append_inj h3
    simp only [List.cons.injEq, true_and] at h5
    obtain ⟨h6, -⟩ := member_quote_append_inj h5
    exact ⟨h6, h4, h2, by rw [h0]⟩

/-- C1 at a concrete input: the sample metadata and its reordering. -/
theorem generateFingerprint_field_order_witness :
    (∃ digest, generateFingerprint sampleDigest "ab12" (.str "Pneumonia")
      (.obj sampleMetadata) = some digest) ∧
    generateFingerprint sampleDigest "ab12" (.str "Pneumonia") (.obj sampleMetadata)
      = generateFingerprint sampleDigest "ab12" (.str "Pneumonia")
          (.obj sampleMetadataReordered) :=
  generateFingerprint_field_order sampleDigest "ab12" (.str "Pneumonia") sampleMetadata
    sampleMetadataReordered
    ((List.Perm.swap _ _ _).trans (List.Perm.cons _ (List.Perm.swap _ _ _)))
    (by decide)

/-- C5: with string-valued output_value, model_id and model_checksum, two
fingerprint inputs with the same input hash that differ in output_value, in
model_id, in model_checksum or in the JSON encoding of inference_params are
given different canonical strings by `generateFingerprint`; their digests can
only be equal when the hash function maps two different strings to the same
digest. -/
theorem generateFingerprint_sensitive (inputHash ov ov2 mi mi2 mc mc2 : String)
    (M M2 p p2 : JSValue)
    (hmi : getMember M "model_id" = some (.str mi))
    (hmc : getMember M "model_checksum" = some (.str mc))
    (hp : getMember M "inference_params" = some p)
    (hmi2 : getMember M2 "model_id" = some (.str mi2))
    (hmc2 : getMember M2 "model_checksum" = some (.str mc2))
    (hp2 : getMember M2 "inference_params" = some p2)
    (hdiff : ov ≠ ov2 ∨ mi ≠ mi2 ∨ mc ≠ mc2 ∨ jsonStringify p none ≠ jsonStringify p2 none) :
    (∃ s s2, canonicalString inputHash (.str ov) M = some s ∧
      canonicalString inputHash (.str ov2) M2 = some s2 ∧ s ≠ s2) ∧
    ∀ sha256hex : String → String,
      generateFingerprint sha256hex inputHash (.str ov) M
        = generateFingerprint sha256hex inputHash (.str ov2) M2 →
      ∃ x y, x ≠ y ∧ sha256hex x = sha256hex y := by
  have hne : canonicalString inputHash (.str ov) M ≠ canonicalString inputHash (.str ov2) M2 := by
    intro heq
    obtain ⟨h1, h2, h3, h4⟩ :=
      canonicalString_strings_inj inputHash ov ov2 mi mi2 mc mc2 M M2 p p2 hmi hmc hp hmi2 hmc2
        hp2 heq
    rcases hdiff with h | h | h | h
    · exact h h1
    · exact h h2
    · exact h h3
    · exact h h4
  obtain ⟨s, hs⟩ : ∃ s, canonicalString inputHash (.str ov) M = some s :=
    ⟨_, canonicalString_eq inputHash _ M _ _ _ hmi hmc hp⟩
  obtain ⟨s2, hs2⟩ : ∃ s, canonicalString inputHash (.str ov2) M2 = some s :=
    ⟨_, canonicalString_eq inputHash _ M2 _ _ _ hmi2 hmc2 hp2⟩
  have hss : s ≠ s2 := fun h => hne (by rw [hs, hs2, h])
  refine ⟨⟨s, s2, hs, hs2, hss⟩, ?_⟩
  intro sha256hex hfp
  simp only [generateFingerprint, hs, hs2, Option.map_some', Option.some.injEq] at hfp
  exact ⟨s, s2, hss, hfp⟩

/-- C5 at a concrete input: the sample metadata against the same metadata with
another model id. -/
theorem generateFingerprint_sensitive_witness :
    (∃ s s2, canonicalString "ab12" (.str "Pneumonia") (.obj sampleMetadata) = some s ∧
      canonicalString "ab12" (.str "Pneumonia") (.obj sampleMetadataOtherModel) = some s2 ∧
      s ≠ s2) ∧
    ∀ sha256hex : String → String,
      generateFingerprint sha256hex "ab12" (.str "Pneumonia") (.obj sampleMetadata)
        = generateFingerprint sha256hex "ab12" (.str "Pneumonia")
            (.obj sampleMetadataOtherModel) →
      ∃ x y, x ≠ y ∧ sha256hex x = sha256hex y :=
  generateFingerprint_sensitive "ab12" "Pneumonia" "Pneumonia" "radiology-v1.0" "radiology-v2.0"
    "abc123" "abc123" (.obj sampleMetadata) (.obj sampleMetadataOtherModel)
    (.obj [("temperature", .num 0), ("max_length", .num 512)])
    (.obj [("temperature", .num 0), ("max_length", .num 512)])
    rfl rfl rfl rfl rfl rfl (Or.inr (Or.inl (by decide)))

/-! ## Lemmas on the handlers -/

theorem getMember_of_truthy {v : JSValue} (h : truthy v = true) (key : String) :
    ∃ w, getMember v key = some w := by
  cases v <;> simp [truthy, getMember] at h ⊢

theorem generateFingerprint_of_truthy (sha256hex : String → String) (inputHash : String)
    (O M : JSValue) (hM : truthy M = true) :
    ∃ F, generateFingerprint sha256hex inputHash O M = some F := by
  obtain ⟨a, ha⟩ := getMember_of_truthy hM "model_id"
  obtain ⟨b, hb⟩ := getMember_of_truthy hM "model_checksum"
  obtain ⟨c, hc⟩ := getMember_of_truthy hM "inference_params"
  exact ⟨_, by rw [generateFingerprint, canonicalString_eq inputHash O M a b c ha hb hc]; rfl⟩

theorem truthy_generatedDecisionId (nowMs : Nat) (randomSuffix : String) :
    truthy (.str (generatedDecisionId nowMs randomSuffix)) = true := by
  simp [truthy, generatedDecisionId, String.data_append]

theorem truthy_jsOr_generated (d0 : JSValue) (nowMs : Nat) (randomSuffix : String) :
    truthy (jsOr d0 (.str (generatedDecisionId nowMs randomSuffix))) = true := by
  unfold jsOr
  split
  · assumption
  · exact truthy_generatedDecisionId nowMs randomSuffix

theorem truthy_of_length (F : String) (h : F.length = 64) : truthy (.str F) = true := by
  have h2 : F.data.length = 64 := h
  simp [truthy, h2]

theorem mapGet_mapSet_self (store : MockStore) (key : JSValue) (v : String)
    (hkey : sameValueZero key key = true) : mapGet (mapSet store key v) key = some v := by
  induction store with
  | nil => simp [mapSet, mapGet, hkey]
  | cons e rest ih =>
    obtain ⟨k, w⟩ := e
    by_cases hk : sameValueZero k key = true
    · simp [mapSet, mapGet, hk]
    · simp [mapSet, mapGet, hk, ih]

/-- The successful answer of `generateProofHandler`. -/
theorem generateProofHandler_ok (sha256hex : String → String) (contract : Option RegisterOutcome)
    (nowMs : Nat) (randomSuffix isoTime : String) (store : MockStore)
    (reqBody : JSValue) (I : String) (O M d0 : JSValue)
    (hI : getMember reqBody "input_text" = some (.str I))
    (hO : getMember reqBody "output_value" = some O)
    (hM : getMember reqBody "model_metadata" = some M)
    (hd : getMember reqBody "decision_id" = some d0)
    (hIt : truthy (.str I) = true) (hOt : truthy O = true) (hMt : truthy M = true) :
    ∃ F, generateFingerprint sha256hex (sha256hex I) O M = some F ∧
      generateProofHandler sha256hex contract nowMs randomSuffix isoTime store reqBody =
        (match contract with
          | none => mapSet store (jsOr d0 (.str (generatedDecisionId nowMs randomSuffix))) F
          | some _ => store,
         Response.mk 200 (.obj
          [("success", .bool true),
           ("decision_id", jsOr d0 (.str (generatedDecisionId nowMs randomSuffix))),
           ("fingerprint", .str F),
           ("input_hash", .str (sha256hex I)),
           ("stored_on_blockchain", .bool (match contract with
              | some (.confirmed hash) => truthy hash
              | _ => false)),
           ("transaction_hash", match contract with
              | some (.confirmed hash) => hash
              | _ => JSValue.null),
           ("blockchain_error", match contract with
              | some (.registerThrows m) => m
              | some (.waitThrows m) => m
              | _ => JSValue.null),
           ("timestamp", .str isoTime)])) := by
  obtain ⟨F, hF⟩ := generateFingerprint_of_truthy sha256hex (sha256hex I) O M hMt
  refine ⟨F, hF, ?_⟩
  rcases contract with _ | (m | m | h) <;>
    simp [generateProofHandler, hI, hO, hM, hd, hIt, hOt, hMt, hashInput, hF,
      show truthy JSValue.null = false from rfl]
theorem length_of_generateFingerprint {sha256hex : String → String}
    (hlen : ∀ s, (sha256hex s).length = 64) {inputHash : String} {O M : JSValue} {F : String}
    (h : generateFingerprint sha256hex inputHash O M = some F) : F.length = 64 := by
  unfold generateFingerprint at h
  cases hc : canonicalString inputHash O M with
  | none => simp [hc] at h
  | some s =>
    simp only [hc, Option.map_some', Option.some.injEq] at h
    rw [← h]
    exact hlen s

theorem sampleDigest_length (s : String) : (sampleDigest s).length = 64 := by
  show ((s.data.reverse ++ List.replicate 64 '0').take 64).length = 64
  simp

/-- The successful answer of `verifyHandler` in local mode. -/
theorem verifyHandler_local (sha256hex : String → String) (isoTime : String)
    (store : MockStore) (reqBody : JSValue) (I : String) (d O M : JSValue)
    (hd : getMember reqBody "decision_id" = some d)
    (hI : getMember reqBody "input_text" = some (.str I))
    (hO : getMember reqBody "output_value" = some O)
    (hM : getMember reqBody "model_metadata" = some M)
    (hdt : truthy d = true) (hIt : truthy (.str I) = true) (hOt : truthy O = true)
    (hMt : truthy M = true) :
    ∃ F2, generateFingerprint sha256hex (sha256hex I) O M = some F2 ∧
      verifyHandler sha256hex none isoTime store reqBody =
        Response.mk 200 (.obj
          [("success", .bool true),
           ("decision_id", d),
           ("provided_fingerprint", .str F2),
           ("stored_fingerprint", match mapGet store d with
              | some F => if truthy (.str F) then .str ("0x" ++ F) else JSValue.null
              | none => JSValue.null),
           ("is_valid", .bool (match mapGet store d with
              | some F => truthy (.str F) && (F == F2)
              | none => false)),
           ("timestamp", JSValue.null),
           ("blockchain_connected", .bool false),
           ("blockchain_error", match mapGet store d with
              | some F => if truthy (.str F)
                  then .str "Blockchain not connected - running in mock mode"
                  else .str "Decision not found in mock storage"
              | none => .str "Decision not found in mock storage"),
           ("verification_time", .str isoTime)]) := by
  obtain ⟨F2, hF⟩ := generateFingerprint_of_truthy sha256hex (sha256hex I) O M hMt
  refine ⟨F2, hF, ?_⟩
  rcases hg : mapGet store d with _ | F
  · simp [verifyHandler, hI, hO, hM, hd, hIt, hOt, hMt, hdt, hashInput, hF, hg]
  · by_cases ht : truthy (.str F) = true
    · simp [verifyHandler, hI, hO, hM, hd, hIt, hOt, hMt, hdt, hashInput, hF, hg, ht]
    · simp [verifyHandler, hI, hO, hM, hd, hIt, hOt, hMt, hdt, hashInput, hF, hg, ht]
/-! ## C2: tamper detection against the fallback store -/

/-- C2: in local mode, after generate-proof has registered decision `d` for
(I, O, M), a verify request for `d` with (I2, O2, M2) answers with the same
decision_id and with is_valid = true exactly when the fingerprint recomputed
from (I2, O2, M2) equals the registered one; so it is true for the unmodified
inputs and false for a tampered input whose fingerprint differs. -/
theorem verify_after_generateProof (sha256hex : String → String)
    (hlen : ∀ s, (sha256hex s).length = 64)
    (nowMs : Nat) (randomSuffix isoTime isoTime2 : String) (store : MockStore)
    (genBody verBody : JSValue) (I I2 d : String) (O M d0 O2 M2 : JSValue)
    (hI : getMember genBody "input_text" = some (.str I))
    (hO : getMember genBody "output_value" = some O)
    (hM : getMember genBody "model_metadata" = some M)
    (hd0 : getMember genBody "decision_id" = some d0)
    (hIt : truthy (.str I) = true) (hOt : truthy O = true) (hMt : truthy M = true)
    (hd : jsOr d0 (.str (generatedDecisionId nowMs randomSuffix)) = .str d)
    (hvd : getMember verBody "decision_id" = some (.str d))
    (hI2 : getMember verBody "input_text" = some (.str I2))
    (hO2 : getMember verBody "output_value" = some O2)
    (hM2 : getMember verBody "model_metadata" = some M2)
    (hI2t : truthy (.str I2) = true) (hO2t : truthy O2 = true) (hM2t : truthy M2 = true) :
    ∃ F F2,
      generateFingerprint sha256hex (sha256hex I) O M = some F ∧
      generateFingerprint sha256hex (sha256hex I2) O2 M2 = some F2 ∧
      (generateProofHandler sha256hex none nowMs randomSuffix isoTime store genBody).2.field
        "decision_id" = .str d ∧
      (generateProofHandler sha256hex none nowMs randomSuffix isoTime store genBody).2.field
        "fingerprint" = .str F ∧
      (verifyHandler sha256hex none isoTime2
        (generateProofHandler sha256hex none nowMs randomSuffix isoTime store genBody).1
        verBody).field "decision_id" = .str d ∧
      (verifyHandler sha256hex none isoTime2
        (generateProofHandler sha256hex none nowMs randomSuffix isoTime store genBody).1
        verBody).field "is_valid" = .bool (decide (F2 = F)) ∧
      (I2 = I → O2 = O → M2 = M → F2 = F) := by
  obtain ⟨F, hF, hgen⟩ := generateProofHandler_ok sha256hex none nowMs randomSuffix isoTime store
    genBody I O M d0 hI hO hM hd0 hIt hOt hMt
  have hdt : truthy (.str d) = true := by
    rw [← hd]; exact truthy_jsOr_generated d0 nowMs randomSuffix
  obtain ⟨F2, hF2, hver⟩ := verifyHandler_local sha256hex isoTime2
    (generateProofHandler sha256hex none nowMs randomSuffix isoTime store genBody).1
    verBody I2 (.str d) O2 M2 hvd hI2 hO2 hM2 hdt hI2t hO2t hM2t
  have hget : mapGet (generateProofHandler sha256hex none nowMs randomSuffix isoTime store
      genBody).1 (.str d) = some F := by
    rw [hgen, hd]
    exact mapGet_mapSet_self store (.str d) F (by simp [sameValueZero])
  have hFt : truthy (.str F) = true := truthy_of_length F (length_of_generateFingerprint hlen hF)
  refine ⟨F, F2, hF, hF2, ?_, ?_, ?_, ?_, ?_⟩
  · rw [hgen, hd]; rfl
  · rw [hgen]; rfl
  · rw [hver]; rfl
  · rw [hver, hget]
    simp only [Response.field, getOwn, hFt, Bool.true_and]
    by_cases h : F2 = F
    · subst h; simp
    · have h2 : F ≠ F2 := fun e => h e.symm
      simp [h, h2]
  · intro h1 h2 h3
    subst h1 h2 h3
    rw [hF] at hF2
    exact (Option.some.inj hF2).symm

/-- C2 at a concrete input: decision `d1` is registered in the empty store and
then verified with a tampered output. -/
theorem verify_after_generateProof_witness :
    ∃ F F2,
      generateFingerprint sampleDigest (sampleDigest "Patient reports mild cough")
        (.str "Low risk") (.obj sampleMetadata) = some F ∧
      generateFingerprint sampleDigest (sampleDigest "Patient reports mild cough")
        (.str "High risk") (.obj sampleMetadata) = some F2 ∧
      (generateProofHandler sampleDigest none 1700000000000 "k3j9x2m1q" "t1" []
        sampleProofRequest).2.field "decision_id" = .str "d1" ∧
      (generateProofHandler sampleDigest none 1700000000000 "k3j9x2m1q" "t1" []
        sampleProofRequest).2.field "fingerprint" = .str F ∧
      (verifyHandler sampleDigest none "t2"
        (generateProofHandler sampleDigest none 1700000000000 "k3j9x2m1q" "t1" []
          sampleProofRequest).1
        sampleTamperedRequest).field "decision_id" = .str "d1" ∧
      (verifyHandler sampleDigest none "t2"
        (generateProofHandler sampleDigest none 1700000000000 "k3j9x2m1q" "t1" []
          sampleProofRequest).1
        sampleTamperedRequest).field "is_valid" = .bool (decide (F2 = F)) ∧
      ("Patient reports mild cough" = "Patient reports mild cough" →
        JSValue.str "High risk" = JSValue.str "Low risk" →
        JSValue.obj sampleMetadata = JSValue.obj sampleMetadata → F2 = F) :=
  verify_after_generateProof sampleDigest sampleDigest_length 1700000000000 "k3j9x2m1q" "t1" "t2"
    [] sampleProofRequest sampleTamperedRequest "Patient reports mild cough"
    "Patient reports mild cough" "d1" (.str "Low risk") (.obj sampleMetadata) (.str "d1")
    (.str "High risk") (.obj sampleMetadata)
    rfl rfl rfl rfl rfl rfl rfl rfl rfl rfl rfl rfl rfl rfl rfl

/-! ## C3: generate-proof in local mode -/

/-- C3: in local mode, for every generate-proof request that carries all
required fields, the response has success = true and stored_on_blockchain =
false, and its blockchain_error is null: the local branch registers the
fingerprint and reports no error. -/
theorem generateProof_local_blockchain_error (sha256hex : String → String)
    (nowMs : Nat) (randomSuffix isoTime : String) (store : MockStore)
    (reqBody : JSValue) (I : String) (O M d0 : JSValue)
    (hI : getMember reqBody "input_text" = some (.str I))
    (hO : getMember reqBody "output_value" = some O)
    (hM : getMember reqBody "model_metadata" = some M)
    (hd : getMember reqBody "decision_id" = some d0)
    (hIt : truthy (.str I) = true) (hOt : truthy O = true) (hMt : truthy M = true) :
    (generateProofHandler sha256hex none nowMs randomSuffix isoTime store reqBody).2.status = 200 ∧
    (generateProofHandler sha256hex none nowMs randomSuffix isoTime store reqBody).2.field
      "success" = .bool true ∧
    (generateProofHandler sha256hex none nowMs randomSuffix isoTime store reqBody).2.field
      "stored_on_blockchain" = .bool false ∧
    (generateProofHandler sha256hex none nowMs randomSuffix isoTime store reqBody).2.field
      "blockchain_error" = JSValue.null := by
  obtain ⟨F, -, hgen⟩ := generateProofHandler_ok sha256hex none nowMs randomSuffix isoTime store
    reqBody I O M d0 hI hO hM hd hIt hOt hMt
  rw [hgen]
  exact ⟨rfl, rfl, rfl, rfl⟩

/-- C3 at a concrete input: the sample request against the empty store. -/
theorem generateProof_local_blockchain_error_witness :
    (generateProofHandler sampleDigest none 1700000000000 "k3j9x2m1q" "t1" []
      sampleProofRequest).2.status = 200 ∧
    (generateProofHandler sampleDigest none 1700000000000 "k3j9x2m1q" "t1" []
      sampleProofRequest).2.field "success" = .bool true ∧
    (generateProofHandler sampleDigest none 1700000000000 "k3j9x2m1q" "t1" []
      sampleProofRequest).2.field "stored_on_blockchain" = .bool false ∧
    (generateProofHandler sampleDigest none 1700000000000 "k3j9x2m1q" "t1" []
      sampleProofRequest).2.field "blockchain_error" = JSValue.null :=
  generateProof_local_blockchain_error sampleDigest 1700000000000 "k3j9x2m1q" "t1" []
    sampleProofRequest "Patient reports mild cough" (.str "Low risk") (.obj sampleMetadata)
    (.str "d1") rfl rfl rfl rfl rfl rfl rfl

/-! ## C4: a ledger failure does not abort generate-proof -/

/-- C4: in on-chain mode, for every generate-proof request with all required
fields, if the register call or its confirmation wait fails with message `m`,
the response is still a success with stored_on_blockchain = false,
transaction_hash = null and blockchain_error = `m`, and it carries the
decision_id, fingerprint and input_hash of the response to the same request
when the ledger call succeeds. -/
theorem generateProof_ledger_failure (sha256hex : String → String)
    (nowMs : Nat) (randomSuffix isoTime : String) (store : MockStore)
    (reqBody : JSValue) (I : String) (O M d0 m txHash : JSValue) (failure : RegisterOutcome)
    (hI : getMember reqBody "input_text" = some (.str I))
    (hO : getMember reqBody "output_value" = some O)
    (hM : getMember reqBody "model_metadata" = some M)
    (hd : getMember reqBody "decision_id" = some d0)
    (hIt : truthy (.str I) = true) (hOt : truthy O = true) (hMt : truthy M = true)
    (hfail : failure = .registerThrows m ∨ failure = .waitThrows m) :
    (generateProofHandler sha256hex (some failure) nowMs randomSuffix isoTime store
      reqBody).2.status = 200 ∧
    (generateProofHandler sha256hex (some failure) nowMs randomSuffix isoTime store
      reqBody).2.field "success" = .bool true ∧
    (generateProofHandler sha256hex (some failure) nowMs randomSuffix isoTime store
      reqBody).2.field "stored_on_blockchain" = .bool false ∧
    (generateProofHandler sha256hex (some failure) nowMs randomSuffix isoTime store
      reqBody).2.field "transaction_hash" = JSValue.null ∧
    (generateProofHandler sha256hex (some failure) nowMs randomSuffix isoTime store
      reqBody).2.field "blockchain_error" = m ∧
    (generateProofHandler sha256hex (some failure) nowMs randomSuffix isoTime store
      reqBody).2.field "decision_id" =
      (generateProofHandler sha256hex (some (.confirmed txHash)) nowMs randomSuffix isoTime store
        reqBody).2.field "decision_id" ∧
    (generateProofHandler sha256hex (some failure) nowMs randomSuffix isoTime store
      reqBody).2.field "fingerprint" =
      (generateProofHandler sha256hex (some (.confirmed txHash)) nowMs randomSuffix isoTime store
        reqBody).2.field "fingerprint" ∧
    (generateProofHandler sha256hex (some failure) nowMs randomSuffix isoTime store
      reqBody).2.field "input_hash" =
      (generateProofHandler sha256hex (some (.confirmed txHash)) nowMs randomSuffix isoTime store
        reqBody).2.field "input_hash" ∧
    (∃ F, (generateProofHandler sha256hex (some failure) nowMs randomSuffix isoTime store
      reqBody).2.field "fingerprint" = .str F ∧
      generateFingerprint sha256hex (sha256hex I) O M = some F) := by
  obtain ⟨F, hF, hgen⟩ := generateProofHandler_ok sha256hex (some failure) nowMs randomSuffix
    isoTime store reqBody I O M d0 hI hO hM hd hIt hOt hMt
  obtain ⟨F0, hF0, hgen0⟩ := generateProofHandler_ok sha256hex (some (.confirmed txHash)) nowMs
    randomSuffix isoTime store reqBody I O M d0 hI hO hM hd hIt hOt hMt
  have hFF : F0 = F := Option.some.inj (hF0.symm.trans hF)
  subst hFF
  rw [hgen, hgen0]
  rcases hfail with h | h <;> subst h <;>
    exact ⟨rfl, rfl, rfl, rfl, rfl, rfl, rfl, rfl, F0, rfl, hF⟩
/-- C4 at a concrete input: the ledger rejects a duplicate registration. -/
theorem generateProof_ledger_failure_witness :
    (generateProofHandler sampleDigest (some (.registerThrows (.str "Decision already registered")))
      1700000000000 "k3j9x2m1q" "t1" [] sampleProofRequest).2.status = 200 ∧
    (generateProofHandler sampleDigest (some (.registerThrows (.str "Decision already registered")))
      1700000000000 "k3j9x2m1q" "t1" [] sampleProofRequest).2.field "success" = .bool true ∧
    (generateProofHandler sampleDigest (some (.registerThrows (.str "Decision already registered")))
      1700000000000 "k3j9x2m1q" "t1" [] sampleProofRequest).2.field "stored_on_blockchain"
      = .bool false ∧
    (generateProofHandler sampleDigest (some (.registerThrows (.str "Decision already registered")))
      1700000000000 "k3j9x2m1q" "t1" [] sampleProofRequest).2.field "transaction_hash"
      = JSValue.null ∧
    (generateProofHandler sampleDigest (some (.registerThrows (.str "Decision already registered")))
      1700000000000 "k3j9x2m1q" "t1" [] sampleProofRequest).2.field "blockchain_error"
      = .str "Decision already registered" ∧
    (generateProofHandler sampleDigest (some (.registerThrows (.str "Decision already registered")))
      1700000000000 "k3j9x2m1q" "t1" [] sampleProofRequest).2.field "decision_id" =
      (generateProofHandler sampleDigest (some (.confirmed (.str "0x5e")))
        1700000000000 "k3j9x2m1q" "t1" [] sampleProofRequest).2.field "decision_id" ∧
    (generateProofHandler sampleDigest (some (.registerThrows (.str "Decision already registered")))
      1700000000000 "k3j9x2m1q" "t1" [] sampleProofRequest).2.field "fingerprint" =
      (generateProofHandler sampleDigest (some (.confirmed (.str "0x5e")))
        1700000000000 "k3j9x2m1q" "t1" [] sampleProofRequest).2.field "fingerprint" ∧
    (generateProofHandler sampleDigest (some (.registerThrows (.str "Decision already registered")))
      1700000000000 "k3j9x2m1q" "t1" [] sampleProofRequest).2.field "input_hash" =
      (generateProofHandler sampleDigest (some (.confirmed (.str "0x5e")))
        1700000000000 "k3j9x2m1q" "t1" [] sampleProofRequest).2.field "input_hash" ∧
    (∃ F, (generateProofHandler sampleDigest
        (some (.registerThrows (.str "Decision already registered")))
        1700000000000 "k3j9x2m1q" "t1" [] sampleProofRequest).2.field "fingerprint" = .str F ∧
      generateFingerprint sampleDigest (sampleDigest "Patient reports mild cough")
        (.str "Low risk") (.obj sampleMetadata) = some F) :=
  generateProof_ledger_failure sampleDigest 1700000000000 "k3j9x2m1q" "t1" []
    sampleProofRequest "Patient reports mild cough" (.str "Low risk") (.obj sampleMetadata)
    (.str "d1") (.str "Decision already registered") (.str "0x5e")
    (.registerThrows (.str "Decision already registered"))
    rfl rfl rfl rfl rfl rfl rfl (Or.inl rfl)

/-! ## C6: verifying a decision that was never registered -/

/-- C6: in local mode, a verify request with all required fields for a
decision_id that the store does not hold is answered with status 200 and the
nine response fields, success = true, is_valid = false, stored_fingerprint =
null and blockchain_error = `Decision not found in mock storage`; the same
request against a store that holds a fingerprint for the id reports another
blockchain_error. -/
theorem verify_unknown_decision (sha256hex : String → String) (isoTime : String)
    (store : MockStore) (reqBody : JSValue) (I : String) (d O M : JSValue)
    (hd : getMember reqBody "decision_id" = some d)
    (hI : getMember reqBody "input_text" = some (.str I))
    (hO : getMember reqBody "output_value" = some O)
    (hM : getMember reqBody "model_metadata" = some M)
    (hdt : truthy d = true) (hIt : truthy (.str I) = true) (hOt : truthy O = true)
    (hMt : truthy M = true)
    (hnone : mapGet store d = none) :
    (verifyHandler sha256hex none isoTime store reqBody).status = 200 ∧
    (∃ props, (verifyHandler sha256hex none isoTime store reqBody).body = .obj props ∧
      objectKeys props = ["success", "decision_id", "provided_fingerprint", "stored_fingerprint",
        "is_valid", "timestamp", "blockchain_connected", "blockchain_error",
        "verification_time"]) ∧
    (verifyHandler sha256hex none isoTime store reqBody).field "success" = .bool true ∧
    (verifyHandler sha256hex none isoTime store reqBody).field "decision_id" = d ∧
    (verifyHandler sha256hex none isoTime store reqBody).field "is_valid" = .bool false ∧
    (verifyHandler sha256hex none isoTime store reqBody).field "stored_fingerprint"
      = JSValue.null ∧
    (verifyHandler sha256hex none isoTime store reqBody).field "blockchain_error"
      = .str "Decision not found in mock storage" ∧
    ∀ (store2 : MockStore) (F : String), mapGet store2 d = some F → F.length = 64 →
      (verifyHandler sha256hex none isoTime store2 reqBody).field "blockchain_error"
        = .str "Blockchain not connected - running in mock mode" ∧
      (verifyHandler sha256hex none isoTime store2 reqBody).field "blockchain_error"
        ≠ (verifyHandler sha256hex none isoTime store reqBody).field "blockchain_error" := by
  obtain ⟨F2, hF2, hver⟩ := verifyHandler_local sha256hex isoTime store reqBody I d O M
    hd hI hO hM hdt hIt hOt hMt
  have hE : (verifyHandler sha256hex none isoTime store reqBody).field "blockchain_error"
      = .str "Decision not found in mock storage" := by
    rw [hver, hnone]; rfl
  refine ⟨by rw [hver], by rw [hver]; exact ⟨_, rfl, rfl⟩, by rw [hver]; rfl, by rw [hver]; rfl,
    by rw [hver, hnone]; rfl, by rw [hver, hnone]; rfl, hE, ?_⟩
  intro store2 F hget hlen
  obtain ⟨F3, -, hver2⟩ := verifyHandler_local sha256hex isoTime store2 reqBody I d O M
    hd hI hO hM hdt hIt hOt hMt
  have hFt : truthy (.str F) = true := truthy_of_length F hlen
  have hE2 : (verifyHandler sha256hex none isoTime store2 reqBody).field "blockchain_error"
      = .str "Blockchain not connected - running in mock mode" := by
    rw [hver2, hget]
    simp only [Response.field, getOwn, hFt]
    rfl
  refine ⟨hE2, ?_⟩
  rw [hE, hE2]
  intro h
  exact absurd (JSValue.str.inj h) (by decide)
/-- C6 at a concrete input: decision `d1` is verified against the empty store. -/
theorem verify_unknown_decision_witness :
    (verifyHandler sampleDigest none "t2" [] sampleVerifyRequest).status = 200 ∧
    (∃ props, (verifyHandler sampleDigest none "t2" [] sampleVerifyRequest).body = .obj props ∧
      objectKeys props = ["success", "decision_id", "provided_fingerprint", "stored_fingerprint",
        "is_valid", "timestamp", "blockchain_connected", "blockchain_error",
        "verification_time"]) ∧
    (verifyHandler sampleDigest none "t2" [] sampleVerifyRequest).field "success" = .bool true ∧
    (verifyHandler sampleDigest none "t2" [] sampleVerifyRequest).field "decision_id"
      = .str "d1" ∧
    (verifyHandler sampleDigest none "t2" [] sampleVerifyRequest).field "is_valid"
      = .bool false ∧
    (verifyHandler sampleDigest none "t2" [] sampleVerifyRequest).field "stored_fingerprint"
      = JSValue.null ∧
    (verifyHandler sampleDigest none "t2" [] sampleVerifyRequest).field "blockchain_error"
      = .str "Decision not found in mock storage" ∧
    ∀ (store2 : MockStore) (F : String), mapGet store2 (.str "d1") = some F → F.length = 64 →
      (verifyHandler sampleDigest none "t2" store2 sampleVerifyRequest).field "blockchain_error"
        = .str "Blockchain not connected - running in mock mode" ∧
      (verifyHandler sampleDigest none "t2" store2 sampleVerifyRequest).field "blockchain_error"
        ≠ (verifyHandler sampleDigest none "t2" [] sampleVerifyRequest).field
            "blockchain_error" :=
  verify_unknown_decision sampleDigest "t2" [] sampleVerifyRequest "Patient reports mild cough"
    (.str "d1") (.str "Low risk") (.obj sampleMetadata) rfl rfl rfl rfl rfl rfl rfl rfl rfl

/-! ## C7: the fallback store keeps the last registration -/

/-- C7: in local mode, when generate-proof registers decision `d` with
fingerprint F1 and then again with fingerprint F2, both calls succeed, and a
verify of `d` is valid for inputs whose fingerprint is F2 and, when F1 differs
from F2, not valid for inputs whose fingerprint is F1. -/
theorem local_last_writer_wins (sha256hex : String → String)
    (hlen : ∀ s, (sha256hex s).length = 64)
    (now1 now2 : Nat) (suffix1 suffix2 iso1 iso2 iso3 : String) (store : MockStore)
    (body1 body2 verBody : JSValue) (I1 I2 I3 d : String)
    (O1 M1 d1 O2 M2 d2 O3 M3 : JSValue)
    (hI1 : getMember body1 "input_text" = some (.str I1))
    (hO1 : getMember body1 "output_value" = some O1)
    (hM1 : getMember body1 "model_metadata" = some M1)
    (hd1 : getMember body1 "decision_id" = some d1)
    (hI1t : truthy (.str I1) = true) (hO1t : truthy O1 = true) (hM1t : truthy M1 = true)
    (hid1 : jsOr d1 (.str (generatedDecisionId now1 suffix1)) = .str d)
    (hI2 : getMember body2 "input_text" = some (.str I2))
    (hO2 : getMember body2 "output_value" = some O2)
    (hM2 : getMember body2 "model_metadata" = some M2)
    (hd2 : getMember body2 "decision_id" = some d2)
    (hI2t : truthy (.str I2) = true) (hO2t : truthy O2 = true) (hM2t : truthy M2 = true)
    (hid2 : jsOr d2 (.str (generatedDecisionId now2 suffix2)) = .str d)
    (hvd : getMember verBody "decision_id" = some (.str d))
    (hI3 : getMember verBody "input_text" = some (.str I3))
    (hO3 : getMember verBody "output_value" = some O3)
    (hM3 : getMember verBody "model_metadata" = some M3)
    (hI3t : truthy (.str I3) = true) (hO3t : truthy O3 = true) (hM3t : truthy M3 = true) :
    ∃ F1 F2 F3,
      generateFingerprint sha256hex (sha256hex I1) O1 M1 = some F1 ∧
      generateFingerprint sha256hex (sha256hex I2) O2 M2 = some F2 ∧
      generateFingerprint sha256hex (sha256hex I3) O3 M3 = some F3 ∧
      (generateProofHandler sha256hex none now1 suffix1 iso1 store body1).2.status = 200 ∧
      (generateProofHandler sha256hex none now1 suffix1 iso1 store body1).2.field "success"
        = .bool true ∧
      (generateProofHandler sha256hex none now2 suffix2 iso2
        (generateProofHandler sha256hex none now1 suffix1 iso1 store body1).1 body2).2.status
        = 200 ∧
      (generateProofHandler sha256hex none now2 suffix2 iso2
        (generateProofHandler sha256hex none now1 suffix1 iso1 store body1).1 body2).2.field
        "success" = .bool true ∧
      (F3 = F2 →
        (verifyHandler sha256hex none iso3
          (generateProofHandler sha256hex none now2 suffix2 iso2
            (generateProofHandler sha256hex none now1 suffix1 iso1 store body1).1 body2).1
          verBody).field "is_valid" = .bool true) ∧
      (F3 = F1 → F1 ≠ F2 →
        (verifyHandler sha256hex none iso3
          (generateProofHandler sha256hex none now2 suffix2 iso2
            (generateProofHandler sha256hex none now1 suffix1 iso1 store body1).1 body2).1
          verBody).field "is_valid" = .bool false) := by
  obtain ⟨F1, hF1, hgen1⟩ := generateProofHandler_ok sha256hex none now1 suffix1 iso1 store
    body1 I1 O1 M1 d1 hI1 hO1 hM1 hd1 hI1t hO1t hM1t
  obtain ⟨F2, hF2, hgen2⟩ := generateProofHandler_ok sha256hex none now2 suffix2 iso2
    (generateProofHandler sha256hex none now1 suffix1 iso1 store body1).1
    body2 I2 O2 M2 d2 hI2 hO2 hM2 hd2 hI2t hO2t hM2t
  have hdt : truthy (.str d) = true := by
    rw [← hid1]; exact truthy_jsOr_generated d1 now1 suffix1
  obtain ⟨F3, hF3, hver⟩ := verifyHandler_local sha256hex iso3
    (generateProofHandler sha256hex none now2 suffix2 iso2
      (generateProofHandler sha256hex none now1 suffix1 iso1 store body1).1 body2).1
    verBody I3 (.str d) O3 M3 hvd hI3 hO3 hM3 hdt hI3t hO3t hM3t
  have hget : mapGet (generateProofHandler sha256hex none now2 suffix2 iso2
      (generateProofHandler sha256hex none now1 suffix1 iso1 store body1).1 body2).1 (.str d)
      = some F2 := by
    rw [hgen2, hid2]
    exact mapGet_mapSet_self _ (.str d) F2 (by simp [sameValueZero])
  have hFt : truthy (.str F2) = true :=
    truthy_of_length F2 (length_of_generateFingerprint hlen hF2)
  have hvalid : (verifyHandler sha256hex none iso3
      (generateProofHandler sha256hex none now2 suffix2 iso2
        (generateProofHandler sha256hex none now1 suffix1 iso1 store body1).1 body2).1
      verBody).field "is_valid" = .bool (F2 == F3) := by
    rw [hver, hget]
    simp only [Response.field, getOwn, hFt, Bool.true_and]
    rfl
  refine ⟨F1, F2, F3, hF1, hF2, hF3, by rw [hgen1], by rw [hgen1]; rfl, by rw [hgen2],
    by rw [hgen2]; rfl, ?_, ?_⟩
  · intro h
    rw [hvalid, h]
    simp
  · intro h hne
    rw [hvalid, h]
    have hne2 : F2 ≠ F1 := fun e => hne e.symm
    simp [hne2]
/-- C7 at a concrete input: decision `d1` is registered twice in the empty
store, the second time with another output, and then verified with the second
output. -/
theorem local_last_writer_wins_witness :
    ∃ F1 F2 F3,
      generateFingerprint sampleDigest (sampleDigest "Patient reports mild cough")
        (.str "Low risk") (.obj sampleMetadata) = some F1 ∧
      generateFingerprint sampleDigest (sampleDigest "Patient reports mild cough")
        (.str "High risk") (.obj sampleMetadata) = some F2 ∧
      generateFingerprint sampleDigest (sampleDigest "Patient reports mild cough")
        (.str "High risk") (.obj sampleMetadata) = some F3 ∧
      (generateProofHandler sampleDigest none 1700000000000 "k3j9x2m1q" "t1" []
        sampleProofRequest).2.status = 200 ∧
      (generateProofHandler sampleDigest none 1700000000000 "k3j9x2m1q" "t1" []
        sampleProofRequest).2.field "success" = .bool true ∧
      (generateProofHandler sampleDigest none 1700000000500 "p0o9i8u7y" "t2"
        (generateProofHandler sampleDigest none 1700000000000 "k3j9x2m1q" "t1" []
          sampleProofRequest).1 sampleSecondProofRequest).2.status = 200 ∧
      (generateProofHandler sampleDigest none 1700000000500 "p0o9i8u7y" "t2"
        (generateProofHandler sampleDigest none 1700000000000 "k3j9x2m1q" "t1" []
          sampleProofRequest).1 sampleSecondProofRequest).2.field "success" = .bool true ∧
      (F3 = F2 →
        (verifyHandler sampleDigest none "t3"
          (generateProofHandler sampleDigest none 1700000000500 "p0o9i8u7y" "t2"
            (generateProofHandler sampleDigest none 1700000000000 "k3j9x2m1q" "t1" []
              sampleProofRequest).1 sampleSecondProofRequest).1
          sampleTamperedRequest).field "is_valid" = .bool true) ∧
      (F3 = F1 → F1 ≠ F2 →
        (verifyHandler sampleDigest none "t3"
          (generateProofHandler sampleDigest none 1700000000500 "p0o9i8u7y" "t2"
            (generateProofHandler sampleDigest none 1700000000000 "k3j9x2m1q" "t1" []
              sampleProofRequest).1 sampleSecondProofRequest).1
          sampleTamperedRequest).field "is_valid" = .bool false) :=
  local_last_writer_wins sampleDigest sampleDigest_length 1700000000000 1700000000500
    "k3j9x2m1q" "p0o9i8u7y" "t1" "t2" "t3" [] sampleProofRequest sampleSecondProofRequest
    sampleTamperedRequest "Patient reports mild cough" "Patient reports mild cough"
    "Patient reports mild cough" "d1" (.str "Low risk") (.obj sampleMetadata) (.str "d1")
    (.str "High risk") (.obj sampleMetadata) (.str "d1") (.str "High risk") (.obj sampleMetadata)
    rfl rfl rfl rfl rfl rfl rfl rfl rfl rfl rfl rfl rfl rfl rfl rfl rfl rfl rfl rfl rfl rfl rfl

/-! ## Lemmas on the rate limiter -/

theorem countsGet_countsSet_self (counts : RequestCounts) (ip : String) (v : List Int) :
    countsGet (countsSet counts ip v) ip = some v := by
  induction counts with
  | nil => simp [countsSet, countsGet]
  | cons e rest ih =>
    obtain ⟨k, w⟩ := e
    by_cases hk : k = ip
    · simp [countsSet, countsGet, hk]
    · simp [countsSet, countsGet, hk, ih]

theorem countsGet_countsSet_other (counts : RequestCounts) (ip other : String) (v : List Int)
    (hne : other ≠ ip) : countsGet (countsSet counts ip v) other = countsGet counts other := by
  induction counts with
  | nil => simp [countsSet, countsGet, Ne.symm hne]
  | cons e rest ih =>
    obtain ⟨k, w⟩ := e
    by_cases hk : k = ip
    · subst hk
      simp [countsSet, countsGet, Ne.symm hne]
    · by_cases hko : k = other
      · subst hko
        simp [countsSet, countsGet, hne]
      · simp [countsSet, countsGet, hk, hko, ih]

/-- The sequence the middleware reads after making sure the identity has an
entry. -/
theorem getD_ensure (counts : RequestCounts) (ip other : String) :
    (countsGet (if (countsGet counts ip).isNone then countsSet counts ip [] else counts)
      other).getD [] = (countsGet counts other).getD [] := by
  by_cases hnone : (countsGet counts ip).isNone = true
  · rw [if_pos hnone]
    by_cases ho : other = ip
    · subst ho
      rw [countsGet_countsSet_self]
      rw [Option.isNone_iff_eq_none] at hnone
      rw [hnone]
      rfl
    · rw [countsGet_countsSet_other _ _ _ _ ho]
  · rw [if_neg hnone]

/-- What one run of the limiter does, in terms of the sequence recorded for
the identity. -/
theorem rateLimit_eq (limiter : RateLimiter) (counts : RequestCounts) (ip : String) (now : Int) :
    rateLimit limiter counts ip now =
      if ((recentRequests limiter ((countsGet counts ip).getD []) now).length : Int)
          ≥ limiter.maxRequestsValue then
        (if (countsGet counts ip).isNone then countsSet counts ip [] else counts,
          Outcome.responded tooManyRequests)
      else
        (countsSet (if (countsGet counts ip).isNone then countsSet counts ip [] else counts) ip
          (recentRequests limiter ((countsGet counts ip).getD []) now ++ [now]), Outcome.next) := by
  simp only [rateLimit, getD_ensure]
/-! ## C9: a rejected check is not recorded, an accepted one is -/

/-- C9: every run of the limiter either rejects or accepts.  When it rejects
it answers 429 without calling the next handler, and the timestamps recorded
for every identity are the ones recorded before (an identity seen for the
first time gets an empty sequence).  When it accepts it calls the next handler,
the sequence of the identity becomes its surviving timestamps followed by the
current time, and the other identities keep their sequences. -/
theorem rateLimit_records_only_accepted (limiter : RateLimiter) (counts : RequestCounts)
    (ip : String) (now : Int) :
    ((rateLimit limiter counts ip now).2 = Outcome.responded tooManyRequests ∧
      tooManyRequests.status = 429 ∧
      (rateLimit limiter counts ip now).2.isNext = false ∧
      ((recentRequests limiter ((countsGet counts ip).getD []) now).length : Int)
        ≥ limiter.maxRequestsValue ∧
      ∀ other, (countsGet (rateLimit limiter counts ip now).1 other).getD []
        = (countsGet counts other).getD [])
    ∨
    ((rateLimit limiter counts ip now).2 = Outcome.next ∧
      (rateLimit limiter counts ip now).2.isNext = true ∧
      ((recentRequests limiter ((countsGet counts ip).getD []) now).length : Int)
        < limiter.maxRequestsValue ∧
      countsGet (rateLimit limiter counts ip now).1 ip
        = some (recentRequests limiter ((countsGet counts ip).getD []) now ++ [now]) ∧
      ∀ other, other ≠ ip →
        (countsGet (rateLimit limiter counts ip now).1 other).getD []
          = (countsGet counts other).getD []) := by
  rw [rateLimit_eq]
  by_cases h : ((recentRequests limiter ((countsGet counts ip).getD []) now).length : Int)
      ≥ limiter.maxRequestsValue
  · left
    rw [if_pos h]
    exact ⟨rfl, rfl, rfl, h, fun other => getD_ensure counts ip other⟩
  · right
    rw [if_neg h]
    refine ⟨rfl, rfl, lt_of_not_ge h, countsGet_countsSet_self _ _ _, ?_⟩
    intro other hne
    simp only [countsGet_countsSet_other _ _ _ _ hne]
    exact getD_ensure counts ip other

/-! ## C10: which timestamps a check counts -/

/-- C10, as stated, fails: with a window of 1000 ms and a maximum of one
request, a timestamp recorded at 0 is equal to `now - W` at the check made at
1000, yet it is evicted and the check is accepted. -/
theorem rateLimit_boundary_not_counted :
    (0 : Int) ≥ 1000 - (createRateLimiter (some 1000) (some 1)).windowMsValue ∧
    (0 : Int) ∉ recentRequests (createRateLimiter (some 1000) (some 1)) [0] 1000 ∧
    (rateLimit (createRateLimiter (some 1000) (some 1)) [("10.0.0.1", [0])] "10.0.0.1"
      1000).2.isNext = true ∧
    countsGet (rateLimit (createRateLimiter (some 1000) (some 1)) [("10.0.0.1", [0])] "10.0.0.1"
      1000).1 "10.0.0.1" = some [1000] := by
  decide

/-- C10, amended: on every check at time `now` with window W the limiter keeps,
in their order and with their multiplicity, exactly the recorded timestamps
`t` with `t > now - W`; the check is rejected exactly when the number of
those timestamps is at least the maximum.  A timestamp equal to `now - W` is
evicted. -/
theorem rateLimit_counts_strictly_newer (limiter : RateLimiter) (counts : RequestCounts)
    (ip : String) (now : Int) :
    (∀ t, t ∈ recentRequests limiter ((countsGet counts ip).getD []) now ↔
      (t ∈ (countsGet counts ip).getD [] ∧ t > now - limiter.windowMsValue)) ∧
    (∀ t, (recentRequests limiter ((countsGet counts ip).getD []) now).count t =
      if t > now - limiter.windowMsValue then ((countsGet counts ip).getD []).count t else 0) ∧
    (recentRequests limiter ((countsGet counts ip).getD []) now).Sublist
      ((countsGet counts ip).getD []) ∧
    ((rateLimit limiter counts ip now).2.isNext = false ↔
      ((((countsGet counts ip).getD []).countP
        (fun t => decide (t > now - limiter.windowMsValue)) : Nat) : Int)
        ≥ limiter.maxRequestsValue) := by
  refine ⟨?_, ?_, ?_, ?_⟩
  · intro t
    simp [recentRequests, List.mem_filter]
  · intro t
    by_cases h : t > now - limiter.windowMsValue
    · rw [if_pos h]
      exact List.count_filter (by simpa using h)
    · rw [if_neg h]
      apply List.count_eq_zero_of_not_mem
      intro hmem
      simp only [recentRequests, List.mem_filter, decide_eq_true_eq] at hmem
      exact h hmem.2
  · exact List.filter_sublist _
  · rw [rateLimit_eq, List.countP_eq_length_filter]
    by_cases h : ((recentRequests limiter ((countsGet counts ip).getD []) now).length : Int)
        ≥ limiter.maxRequestsValue
    · rw [if_pos h]
      simpa [recentRequests, Outcome.isNext] using h
    · rw [if_neg h]
      simpa [recentRequests, Outcome.isNext] using h
/-! ## C8: quota within one window, and acceptance after it -/

theorem rateLimitRun_append (limiter : RateLimiter) :
    ∀ (a b : List (String × Int)) (counts : RequestCounts),
      rateLimitRun limiter counts (a ++ b) =
        ((rateLimitRun limiter (rateLimitRun limiter counts a).1 b).1,
          (rateLimitRun limiter counts a).2
            ++ (rateLimitRun limiter (rateLimitRun limiter counts a).1 b).2)
  | [], b, counts => by simp [rateLimitRun]
  | (ip, now) :: a, b, counts => by
      simp [rateLimitRun, rateLimitRun_append limiter a b]

theorem le_getLast_of_sorted : ∀ (l : List Int) (h : l ≠ []),
    l.Pairwise (fun a b => a ≤ b) → ∀ a ∈ l, a ≤ l.getLast h
  | [x], _, _, a, ha => by
      simp only [List.mem_singleton] at ha
      simp [ha]
  | x :: y :: rest, _, hs, a, ha => by
      rw [List.getLast_cons (List.cons_ne_nil y rest)]
      have hs2 := List.pairwise_cons.mp hs
      rcases List.mem_cons.mp ha with h1 | h1
      · rw [h1]
        exact hs2.1 _ (List.getLast_mem _)
      · exact le_getLast_of_sorted (y :: rest) _ hs2.2 a h1

/-- While the identity stays under its quota and nothing recorded leaves the
window, every check is accepted and recorded. -/
theorem rateLimitRun_accepts (limiter : RateLimiter) (ip : String) :
    ∀ (ts : List Int) (counts : RequestCounts),
      (∀ t ∈ ts, ∀ s ∈ (countsGet counts ip).getD [], s > t - limiter.windowMsValue) →
      (∀ a ∈ ts, ∀ b ∈ ts, a > b - limiter.windowMsValue) →
      ((((countsGet counts ip).getD []).length + ts.length : Nat) : Int)
        ≤ limiter.maxRequestsValue →
      (rateLimitRun limiter counts (ts.map (fun t => (ip, t)))).2
        = List.replicate ts.length Outcome.next ∧
      (countsGet (rateLimitRun limiter counts (ts.map (fun t => (ip, t)))).1 ip).getD []
        = (countsGet counts ip).getD [] ++ ts
  | [], counts, _, _, _ => by simp [rateLimitRun]
  | t :: ts, counts, hold, hnew, hquota => by
      have hrecent : recentRequests limiter ((countsGet counts ip).getD []) t
          = (countsGet counts ip).getD [] := by
        unfold recentRequests
        rw [List.filter_eq_self]
        intro s hs
        simpa using hold t (List.mem_cons_self _ _) s hs
      have hlt : ¬ (((recentRequests limiter ((countsGet counts ip).getD []) t).length : Int)
          ≥ limiter.maxRequestsValue) := by
        rw [hrecent]
        simp only [List.length_cons] at hquota
        push_cast at hquota ⊢
        omega
      have hstep : rateLimit limiter counts ip t =
          (countsSet (if (countsGet counts ip).isNone then countsSet counts ip [] else counts) ip
            ((countsGet counts ip).getD [] ++ [t]), Outcome.next) := by
        rw [rateLimit_eq, if_neg hlt, hrecent]
      have hseq : (countsGet (rateLimit limiter counts ip t).1 ip).getD []
          = (countsGet counts ip).getD [] ++ [t] := by
        rw [hstep, countsGet_countsSet_self]
        rfl
      have ih := rateLimitRun_accepts limiter ip ts (rateLimit limiter counts ip t).1
        (by
          intro t2 ht2 s hs
          rw [hseq] at hs
          rcases List.mem_append.mp hs with h1 | h1
          · exact hold t2 (List.mem_cons_of_mem _ ht2) s h1
          · simp only [List.mem_singleton] at h1
            rw [h1]
            exact hnew t (List.mem_cons_self _ _) t2 (List.mem_cons_of_mem _ ht2))
        (fun a ha b hb => hnew a (List.mem_cons_of_mem _ ha) b (List.mem_cons_of_mem _ hb))
        (by
          rw [hseq]
          simp only [List.length_append, List.length_cons, List.length_nil] at hquota ⊢
          push_cast at hquota ⊢
          omega)
      simp only [List.map_cons, rateLimitRun, List.length_cons, List.replicate_succ]
      refine ⟨?_, ?_⟩
      · rw [ih.1, hstep]
      · rw [ih.2, hseq]
        simp
/-- C8: for a window W > 0, a maximum M >= 1 and an identity with no recorded
requests, M + 1 checks from that identity at non-decreasing times that all
fall less than W after the first yield M acceptances followed by one rejection
with status 429; a further check made once W has elapsed since the last
accepted request is accepted. -/
theorem rateLimit_window_quota (W M : Int) (hW : 0 < W) (hM : 1 ≤ M)
    (counts : RequestCounts) (ip : String) (first : Int) (more : List Int)
    (rejected later : Int)
    (hempty : (countsGet counts ip).getD [] = [])
    (hcount : ((more.length + 1 : Nat) : Int) = M)
    (hsorted : (first :: (more ++ [rejected])).Pairwise (fun a b => a ≤ b))
    (hwithin : ∀ t ∈ first :: (more ++ [rejected]), t < first + W)
    (hlater : (first :: more).getLast (List.cons_ne_nil first more) + W ≤ later) :
    (rateLimitRun (createRateLimiter (some W) (some M)) counts
        ((first :: (more ++ [rejected])).map (fun t => (ip, t)))).2
      = List.replicate (more.length + 1) Outcome.next ++ [Outcome.responded tooManyRequests] ∧
    tooManyRequests.status = 429 ∧
    (rateLimit (createRateLimiter (some W) (some M))
      (rateLimitRun (createRateLimiter (some W) (some M)) counts
        ((first :: (more ++ [rejected])).map (fun t => (ip, t)))).1 ip later).2
      = Outcome.next := by
  have hw : (createRateLimiter (some W) (some M)).windowMsValue = W := by
    simp [createRateLimiter, orDefault, hW.ne']
  have hm : (createRateLimiter (some W) (some M)).maxRequestsValue = M := by
    have : M ≠ 0 := by omega
    simp [createRateLimiter, orDefault, this]
  generalize createRateLimiter (some W) (some M) = limiter at hw hm ⊢
  have hsplit : first :: (more ++ [rejected]) = (first :: more) ++ [rejected] := rfl
  have hs2 := List.pairwise_cons.mp hsorted
  have hge : ∀ a ∈ first :: (more ++ [rejected]), first ≤ a := by
    intro a ha
    rcases List.mem_cons.mp ha with h1 | h1
    · exact le_of_eq h1.symm
    · exact hs2.1 a h1
  have hsub : ∀ a ∈ first :: more, a ∈ first :: (more ++ [rejected]) := by
    intro a ha
    rw [hsplit]
    exact List.mem_append_left _ ha
  have hrej : rejected ∈ first :: (more ++ [rejected]) := by
    rw [hsplit]
    exact List.mem_append_right _ (List.mem_singleton_self _)
  obtain ⟨hout, hseq⟩ := rateLimitRun_accepts limiter ip (first :: more) counts
    (by intro t _ s hs; rw [hempty] at hs; simp at hs)
    (by
      intro a ha b hb
      have h1 := hge a (hsub a ha)
      have h2 := hwithin b (hsub b hb)
      rw [hw]
      omega)
    (by rw [hempty, hm, ← hcount]; simp)
  rw [hempty, List.nil_append] at hseq
  -- the check over the quota
  have hrecent : recentRequests limiter (first :: more) rejected = first :: more := by
    unfold recentRequests
    rw [List.filter_eq_self]
    intro s hs
    have h1 := hge s (hsub s hs)
    have h2 := hwithin rejected hrej
    rw [hw]
    simp only [gt_iff_lt, decide_eq_true_eq]
    omega
  have hstepR : rateLimit limiter
      (rateLimitRun limiter counts ((first :: more).map (fun t => (ip, t)))).1 ip rejected
      = (if (countsGet (rateLimitRun limiter counts
            ((first :: more).map (fun t => (ip, t)))).1 ip).isNone
          then countsSet (rateLimitRun limiter counts
            ((first :: more).map (fun t => (ip, t)))).1 ip []
          else (rateLimitRun limiter counts ((first :: more).map (fun t => (ip, t)))).1,
        Outcome.responded tooManyRequests) := by
    rw [rateLimit_eq, hseq, hrecent, if_pos]
    rw [hm, ← hcount]
    simp
  have hrun : rateLimitRun limiter counts
      ((first :: (more ++ [rejected])).map (fun t => (ip, t)))
      = ((rateLimit limiter
          (rateLimitRun limiter counts ((first :: more).map (fun t => (ip, t)))).1 ip
            rejected).1,
        (rateLimitRun limiter counts ((first :: more).map (fun t => (ip, t)))).2
          ++ [(rateLimit limiter
            (rateLimitRun limiter counts ((first :: more).map (fun t => (ip, t)))).1 ip
              rejected).2]) := by
    rw [hsplit, List.map_append, rateLimitRun_append]
    rfl
  have hseq2 : (countsGet (rateLimitRun limiter counts
      ((first :: (more ++ [rejected])).map (fun t => (ip, t)))).1 ip).getD []
      = first :: more := by
    rw [hrun, hstepR]
    simp only []
    rw [getD_ensure, hseq]
  refine ⟨?_, rfl, ?_⟩
  · rw [hrun, hstepR, hout]
    rfl
  · have hnone : recentRequests limiter (first :: more) later = [] := by
      unfold recentRequests
      rw [List.filter_eq_nil_iff]
      intro s hs
      have hsorted2 : (first :: more).Pairwise (fun a b => a ≤ b) := by
        rw [hsplit] at hsorted
        exact (List.pairwise_append.mp hsorted).1
      have h1 := le_getLast_of_sorted (first :: more) (List.cons_ne_nil first more) hsorted2 s hs
      rw [hw]
      simp only [gt_iff_lt, decide_eq_true_eq, not_lt]
      omega
    rw [rateLimit_eq, hseq2, hnone, if_neg]
    rw [hm]
    simp only [List.length_nil, Nat.cast_zero, ge_iff_le, not_le]
    omega

/-- C8 at the input of the specification: window 1000 ms, maximum 3, checks at
0, 100, 200 and 300, and a fifth check at 1200. -/
theorem rateLimit_window_quota_witness :
    (rateLimitRun (createRateLimiter (some 1000) (some 3)) []
        (([0, 100, 200, 300] : List Int).map (fun t => ("10.0.0.1", t)))).2
      = List.replicate 3 Outcome.next ++ [Outcome.responded tooManyRequests] ∧
    tooManyRequests.status = 429 ∧
    (rateLimit (createRateLimiter (some 1000) (some 3))
      (rateLimitRun (createRateLimiter (some 1000) (some 3)) []
        (([0, 100, 200, 300] : List Int).map (fun t => ("10.0.0.1", t)))).1 "10.0.0.1" 1200).2
      = Outcome.next :=
  rateLimit_window_quota 1000 3 (by decide) (by decide) [] "10.0.0.1" 0 [100, 200] 300 1200
    rfl rfl (by decide) (by decide) (by decide)
/-! ## Lemmas on decimal numerals -/

theorem digitValue_digitChar : ∀ m, m < 10 → digitValue 10 (Nat.digitChar m) = some m := by
  decide

theorem digitChar_not_space : ∀ m, m < 10 →
    isJSWhiteSpace (Nat.digitChar m) = false ∧ (Nat.digitChar m).toNat ≠ 45
      ∧ (Nat.digitChar m).toNat ≠ 43 ∧ (Nat.digitChar m).toNat ≠ 120
      ∧ (Nat.digitChar m).toNat ≠ 88 := by
  decide

theorem toDigitsCore_append : ∀ (fuel n : Nat) (ds rest : List Char),
    Nat.toDigitsCore 10 fuel n ds ++ rest = Nat.toDigitsCore 10 fuel n (ds ++ rest)
  | 0, _, _, _ => rfl
  | fuel + 1, n, ds, rest => by
      simp only [Nat.toDigitsCore]
      split
      · rfl
      · exact toDigitsCore_append fuel (n / 10) (Nat.digitChar (n % 10) :: ds) rest

/-- Reading back a numeral written by `Nat.toDigits`. -/
theorem parseDigits_toDigitsCore : ∀ (fuel n : Nat) (ds : List Char), n < fuel →
    parseDigits 10 none (Nat.toDigitsCore 10 fuel n ds) = parseDigits 10 (some n) ds
  | 0, _, _, h => absurd h (Nat.not_lt_zero _)
  | fuel + 1, n, ds, h => by
      simp only [Nat.toDigitsCore]
      split
      · rename_i h0
        have hn : n % 10 = n := by omega
        have hlt : n < 10 := by omega
        rw [hn]
        simp [parseDigits, digitValue_digitChar n hlt]
      · rename_i h0
        rw [parseDigits_toDigitsCore fuel (n / 10) _ (by omega)]
        simp only [parseDigits, digitValue_digitChar (n % 10) (Nat.mod_lt _ (by decide)),
          Option.getD_some]
        congr 2
        omega

theorem parseDigits_toDigits_append (n : Nat) (rest : List Char) :
    parseDigits 10 none (Nat.toDigits 10 n ++ rest) = parseDigits 10 (some n) rest := by
  unfold Nat.toDigits
  rw [toDigitsCore_append, List.nil_append]
  exact parseDigits_toDigitsCore (n + 1) n rest (Nat.lt_succ_self n)

/-- The first digit of a numeral, with what it is not. -/
theorem toDigitsCore_head : ∀ (fuel n : Nat) (ds : List Char), 0 < fuel →
    ∃ m rest, m < 10 ∧ Nat.toDigitsCore 10 fuel n ds = Nat.digitChar m :: rest
  | 0, _, _, h => absurd h (Nat.lt_irrefl 0)
  | fuel + 1, n, ds, _ => by
      simp only [Nat.toDigitsCore]
      split
      · exact ⟨n % 10, ds, Nat.mod_lt _ (by decide), rfl⟩
      · rename_i h0
        have hf : 0 < fuel ∨ fuel = 0 := by omega
        rcases hf with hf | hf
        · exact toDigitsCore_head fuel (n / 10) _ hf
        · subst hf
          exact ⟨n % 10, ds, Nat.mod_lt _ (by decide), rfl⟩
/-! ## C11: generated decision ids -/

theorem generatedDecisionId_inj {now1 now2 : Nat} {suffix1 suffix2 : String}
    (h : generatedDecisionId now1 suffix1 = generatedDecisionId now2 suffix2) :
    now1 = now2 ∧ suffix1 = suffix2 := by
  have h2 := congrArg String.data h
  simp only [generatedDecisionId, String.data_append, List.append_assoc] at h2
  have h3 := List.append_cancel_left h2
  have hdash : ∀ (n : Nat) (s : String),
      parseDigits 10 none (Nat.toDigits 10 n ++ ("-".data ++ s.data)) = some n := by
    intro n s
    rw [parseDigits_toDigits_append]
    rfl
  have hn : now1 = now2 := by
    have h4 := congrArg (parseDigits 10 none) h3
    rw [hdash, hdash] at h4
    exact Option.some.inj h4
  subst hn
  have h5 := List.append_cancel_left (List.append_cancel_left h3)
  exact ⟨rfl, String.ext h5⟩

/-- C11, as stated, fails: two successive generate-proof calls without a
decision_id that read the same clock value and draw the same random suffix
answer with the same generated decision_id. -/
theorem generated_ids_can_coincide :
    getMember sampleProofRequestNoId "decision_id" = some JSValue.undefined ∧
    (generateProofHandler sampleDigest none 1700000000000 "k3j9x2m1q" "t1" []
      sampleProofRequestNoId).2.field "decision_id"
      = .str "decision-1700000000000-k3j9x2m1q" ∧
    (generateProofHandler sampleDigest none 1700000000000 "k3j9x2m1q" "t2"
      (generateProofHandler sampleDigest none 1700000000000 "k3j9x2m1q" "t1" []
        sampleProofRequestNoId).1
      sampleProofRequestNoId).2.field "decision_id"
      = .str "decision-1700000000000-k3j9x2m1q" :=
  ⟨rfl, rfl, rfl⟩

/-- C11, amended: for two successive generate-proof calls that supply no
decision_id, each response carries the id generated from the clock value and
the random suffix of its call, and the two ids are distinct exactly when the
clock values or the random suffixes of the two calls differ. -/
theorem generated_ids_distinct_iff (sha256hex : String → String)
    (contract1 contract2 : Option RegisterOutcome)
    (now1 now2 : Nat) (suffix1 suffix2 iso1 iso2 : String) (store : MockStore)
    (body1 body2 : JSValue) (I1 I2 : String) (O1 M1 d1 O2 M2 d2 : JSValue)
    (hI1 : getMember body1 "input_text" = some (.str I1))
    (hO1 : getMember body1 "output_value" = some O1)
    (hM1 : getMember body1 "model_metadata" = some M1)
    (hd1 : getMember body1 "decision_id" = some d1)
    (hI1t : truthy (.str I1) = true) (hO1t : truthy O1 = true) (hM1t : truthy M1 = true)
    (hno1 : truthy d1 = false)
    (hI2 : getMember body2 "input_text" = some (.str I2))
    (hO2 : getMember body2 "output_value" = some O2)
    (hM2 : getMember body2 "model_metadata" = some M2)
    (hd2 : getMember body2 "decision_id" = some d2)
    (hI2t : truthy (.str I2) = true) (hO2t : truthy O2 = true) (hM2t : truthy M2 = true)
    (hno2 : truthy d2 = false) :
    (generateProofHandler sha256hex contract1 now1 suffix1 iso1 store body1).2.field
      "decision_id" = .str (generatedDecisionId now1 suffix1) ∧
    (generateProofHandler sha256hex contract2 now2 suffix2 iso2
      (generateProofHandler sha256hex contract1 now1 suffix1 iso1 store body1).1 body2).2.field
      "decision_id" = .str (generatedDecisionId now2 suffix2) ∧
    ((generateProofHandler sha256hex contract1 now1 suffix1 iso1 store body1).2.field
        "decision_id"
      ≠ (generateProofHandler sha256hex contract2 now2 suffix2 iso2
        (generateProofHandler sha256hex contract1 now1 suffix1 iso1 store body1).1
        body2).2.field "decision_id"
      ↔ (now1 ≠ now2 ∨ suffix1 ≠ suffix2)) := by
  obtain ⟨F1, -, hgen1⟩ := generateProofHandler_ok sha256hex contract1 now1 suffix1 iso1 store
    body1 I1 O1 M1 d1 hI1 hO1 hM1 hd1 hI1t hO1t hM1t
  obtain ⟨F2, -, hgen2⟩ := generateProofHandler_ok sha256hex contract2 now2 suffix2 iso2
    (generateProofHandler sha256hex contract1 now1 suffix1 iso1 store body1).1
    body2 I2 O2 M2 d2 hI2 hO2 hM2 hd2 hI2t hO2t hM2t
  have e1 : (generateProofHandler sha256hex contract1 now1 suffix1 iso1 store body1).2.field
      "decision_id" = .str (generatedDecisionId now1 suffix1) := by
    rw [hgen1]
    simp only [jsOr, hno1]
    rfl
  have e2 : (generateProofHandler sha256hex contract2 now2 suffix2 iso2
      (generateProofHandler sha256hex contract1 now1 suffix1 iso1 store body1).1 body2).2.field
      "decision_id" = .str (generatedDecisionId now2 suffix2) := by
    rw [hgen2]
    simp only [jsOr, hno2]
    rfl
  refine ⟨e1, e2, ?_⟩
  rw [e1, e2]
  constructor
  · intro hne
    by_contra hcon
    push_neg at hcon
    exact hne (by rw [hcon.1, hcon.2])
  · intro hdiff heq
    obtain ⟨h1, h2⟩ := generatedDecisionId_inj (JSValue.str.inj heq)
    rcases hdiff with h | h
    · exact h h1
    · exact h h2

/-- C11 at a concrete input: two calls in the same millisecond with different
random suffixes. -/
theorem generated_ids_distinct_iff_witness :
    (generateProofHandler sampleDigest none 1700000000000 "k3j9x2m1q" "t1" []
      sampleProofRequestNoId).2.field "decision_id"
      = .str (generatedDecisionId 1700000000000 "k3j9x2m1q") ∧
    (generateProofHandler sampleDigest none 1700000000000 "p0o9i8u7y" "t2"
      (generateProofHandler sampleDigest none 1700000000000 "k3j9x2m1q" "t1" []
        sampleProofRequestNoId).1 sampleProofRequestNoId).2.field
      "decision_id" = .str (generatedDecisionId 1700000000000 "p0o9i8u7y") ∧
    ((generateProofHandler sampleDigest none 1700000000000 "k3j9x2m1q" "t1" []
        sampleProofRequestNoId).2.field "decision_id"
      ≠ (generateProofHandler sampleDigest none 1700000000000 "p0o9i8u7y" "t2"
        (generateProofHandler sampleDigest none 1700000000000 "k3j9x2m1q" "t1" []
          sampleProofRequestNoId).1 sampleProofRequestNoId).2.field "decision_id"
      ↔ ((1700000000000 : Nat) ≠ 1700000000000 ∨ "k3j9x2m1q" ≠ "p0o9i8u7y")) :=
  generated_ids_distinct_iff sampleDigest none none 1700000000000 1700000000000
    "k3j9x2m1q" "p0o9i8u7y" "t1" "t2" [] sampleProofRequestNoId sampleProofRequestNoId
    "Patient reports mild cough" "Patient reports mild cough"
    (.str "Low risk") (.obj sampleMetadata) JSValue.undefined
    (.str "Low risk") (.obj sampleMetadata) JSValue.undefined
    rfl rfl rfl rfl rfl rfl rfl rfl rfl rfl rfl rfl rfl rfl rfl rfl
/-! ## C12: the payload size guard -/

theorem toDigitsCore_all : ∀ (fuel n : Nat) (ds : List Char),
    (∀ c ∈ ds, ∃ m, m < 10 ∧ c = Nat.digitChar m) →
    ∀ c ∈ Nat.toDigitsCore 10 fuel n ds, ∃ m, m < 10 ∧ c = Nat.digitChar m
  | 0, _, _, h => h
  | fuel + 1, n, ds, h => by
      have hcons : ∀ c ∈ Nat.digitChar (n % 10) :: ds, ∃ m, m < 10 ∧ c = Nat.digitChar m := by
        intro c hc
        rcases List.mem_cons.mp hc with h1 | h1
        · exact ⟨n % 10, Nat.mod_lt _ (by decide), h1⟩
        · exact h c h1
      simp only [Nat.toDigitsCore]
      split
      · exact hcons
      · exact toDigitsCore_all fuel (n / 10) _ hcons

theorem parseInt_of_digits (l : List Char) (hne : l ≠ [])
    (hall : ∀ c ∈ l, ∃ m, m < 10 ∧ c = Nat.digitChar m) :
    parseInt (String.mk l) = (parseDigits 10 none l).map (fun n => (n : Int)) := by
  match l, hne, hall with
  | a :: rest, _, hall =>
    obtain ⟨m, hm, ha⟩ := hall a (List.mem_cons_self _ _)
    obtain ⟨hws, h45, h43, -, -⟩ := digitChar_not_space m hm
    subst ha
    have hdrop : (Nat.digitChar m :: rest).dropWhile isJSWhiteSpace = Nat.digitChar m :: rest := by
      simp [List.dropWhile, hws]
    have hhex : (match Nat.digitChar m :: rest with
        | a :: b :: _ => a.toNat == 48 && (b.toNat == 120 || b.toNat == 88)
        | _ => false) = false := by
      cases rest with
      | nil => rfl
      | cons b rest2 =>
        obtain ⟨m2, hm2, hb⟩ := hall b (List.mem_cons_of_mem _ (List.mem_cons_self _ _))
        obtain ⟨-, -, -, h120, h88⟩ := digitChar_not_space m2 hm2
        subst hb
        simp [h120, h88]
    simp only [parseInt, hdrop, h45, h43, or_self, if_false, hhex, beq_iff_eq]
    simp

theorem parseInt_numeral (n : Nat) :
    parseInt (String.mk (Nat.toDigits 10 n)) = some (n : Int) := by
  have hne : Nat.toDigits 10 n ≠ [] := by
    obtain ⟨m, rest, -, h⟩ := toDigitsCore_head (n + 1) n [] (Nat.succ_pos n)
    unfold Nat.toDigits
    rw [h]
    exact List.cons_ne_nil _ _
  have hall : ∀ c ∈ Nat.toDigits 10 n, ∃ m, m < 10 ∧ c = Nat.digitChar m :=
    toDigitsCore_all (n + 1) n [] (by intro c hc; simp at hc)
  rw [parseInt_of_digits _ hne hall]
  have h := parseDigits_toDigits_append n []
  rw [List.append_nil] at h
  rw [h]
  rfl

theorem truthy_numeral (n : Nat) : truthy (.str (String.mk (Nat.toDigits 10 n))) = true := by
  obtain ⟨m, rest, -, h⟩ := toDigitsCore_head (n + 1) n [] (Nat.succ_pos n)
  unfold Nat.toDigits
  simp [truthy, h]

/-- C12: for every request whose content-length header is the decimal numeral
of `n`, `validateRequestSize` answers 413 without calling the next handler if
and only if `n > 10 * 1024 * 1024`, and calls the next handler otherwise; so
10485760 is accepted and 10485761 is rejected.  A request with no
content-length header is passed on. -/
theorem validateRequestSize_ceiling (n : Nat) :
    (validateRequestSize (some (String.mk (Nat.toDigits 10 n)))
        = Outcome.responded payloadTooLarge ↔ n > 10 * 1024 * 1024) ∧
    (validateRequestSize (some (String.mk (Nat.toDigits 10 n))) = Outcome.next
        ↔ n ≤ 10 * 1024 * 1024) ∧
    payloadTooLarge.status = 413 ∧
    (Outcome.responded payloadTooLarge).isNext = false ∧
    validateRequestSize (some "10485760") = Outcome.next ∧
    validateRequestSize (some "10485761") = Outcome.responded payloadTooLarge ∧
    parseInt "0" = some 0 ∧
    validateRequestSize none = Outcome.next := by
  have hv : validateRequestSize (some (String.mk (Nat.toDigits 10 n)))
      = if (n : Int) > (maxSize : Int) then Outcome.responded payloadTooLarge
        else Outcome.next := by
    simp only [validateRequestSize, truthy_numeral, if_true, parseInt_numeral]
  have hmax : (maxSize : Int) = 10485760 := by decide
  refine ⟨?_, ?_, rfl, rfl, by rfl, by rfl, by decide, by rfl⟩
  · rw [hv, hmax]
    by_cases h : (n : Int) > 10485760
    · rw [if_pos h]
      simp only [true_iff]
      omega
    · rw [if_neg h]
      constructor
      · intro hc; cases hc
      · intro hn; exact absurd (by omega) h
  · rw [hv, hmax]
    by_cases h : (n : Int) > 10485760
    · rw [if_pos h]
      constructor
      · intro hc; cases hc
      · intro hn; exact absurd h (by omega)
    · rw [if_neg h]
      simp only [true_iff]
      omega

/-! ## C13: the content-type guard -/

/-- C13, as stated, fails: a DELETE request without a content-type header and a
PATCH request that declares `text/plain` are passed on to the next handler. -/
theorem validateContentType_skips_delete_and_patch :
    (validateContentType "DELETE" none).isNext = true ∧
    (validateContentType "PATCH" (some "text/plain")).isNext = true := by
  decide

/-- C13, amended: `validateContentType` answers 400 without calling the next
handler exactly for the POST and PUT requests whose content-type header is
absent or does not contain `application/json`; every other request, in
particular every request that declares `application/json` and every request of
another method, is passed on. -/
theorem validateContentType_guard (method : String) (contentType : Option String) :
    ((validateContentType method contentType).isNext = false ↔
      ((method = "POST" ∨ method = "PUT") ∧
        ∀ ct, contentType = some ct → includes ct.data "application/json".data = false)) ∧
    ((validateContentType method contentType).isNext = false →
      (validateContentType method contentType).status? = some 400) := by
  by_cases hm : method = "POST" ∨ method = "PUT"
  · cases contentType with
    | none =>
      simp [validateContentType, hm, Outcome.isNext, Outcome.status?]
    | some ct =>
      by_cases hinc : includes ct.data "application/json".data = true
      · have ht : truthy (.str ct) = true := by
          cases hd : ct.data with
          | nil => rw [hd] at hinc; exact absurd hinc (by decide)
          | cons c cs => simp [truthy, hd]
        simp [validateContentType, hm, Outcome.isNext, Outcome.status?, hinc, ht]
      · have hinc2 : includes ct.data "application/json".data = false := by
          simpa using hinc
        simp [validateContentType, hm, Outcome.isNext, Outcome.status?, hinc2]
  · simp [validateContentType, hm, Outcome.isNext, Outcome.status?]
/-! ## C14: the sanitizer -/

theorem dropWhile_head_not (p : Char → Bool) : ∀ (l : List Char) (c : Char) (t : List Char),
    l.dropWhile p = c :: t → p c = false
  | [], _, _, h => by simp at h
  | x :: xs, c, t, h => by
      by_cases hx : p x = true
      · rw [List.dropWhile_cons_of_pos hx] at h
        exact dropWhile_head_not p xs c t h
      · rw [List.dropWhile_cons_of_neg hx] at h
        obtain ⟨h1, -⟩ := List.cons.inj h
        rw [← h1]
        simpa using hx

/-- What `trim` returns: the text is white space, then the result, then white
space, and the result neither starts nor ends with white space. -/
theorem jsTrim_spec (s : String) :
    ∃ pre post, s.data = pre ++ (jsTrim s).data ++ post ∧
      (∀ c ∈ pre, isJSWhiteSpace c = true) ∧ (∀ c ∈ post, isJSWhiteSpace c = true) ∧
      (∀ c rest, (jsTrim s).data = c :: rest → isJSWhiteSpace c = false) ∧
      (∀ c init, (jsTrim s).data = init ++ [c] → isJSWhiteSpace c = false) := by
  have hsplit : (s.data.dropWhile isJSWhiteSpace)
      = ((s.data.dropWhile isJSWhiteSpace).reverse.dropWhile isJSWhiteSpace).reverse
        ++ ((s.data.dropWhile isJSWhiteSpace).reverse.takeWhile isJSWhiteSpace).reverse := by
    rw [← List.reverse_append, List.takeWhile_append_dropWhile, List.reverse_reverse]
  refine ⟨s.data.takeWhile isJSWhiteSpace,
    ((s.data.dropWhile isJSWhiteSpace).reverse.takeWhile isJSWhiteSpace).reverse, ?_, ?_, ?_, ?_, ?_⟩
  · show s.data = _ ++ ((s.data.dropWhile isJSWhiteSpace).reverse.dropWhile
      isJSWhiteSpace).reverse ++ _
    rw [List.append_assoc, ← hsplit, List.takeWhile_append_dropWhile]
  · intro c hc
    exact List.mem_takeWhile_imp hc
  · intro c hc
    exact List.mem_takeWhile_imp (List.mem_reverse.mp hc)
  · intro c rest h
    have h2 : (jsTrim s).data = ((s.data.dropWhile isJSWhiteSpace).reverse.dropWhile
      isJSWhiteSpace).reverse := rfl
    rw [h2] at h
    rw [h] at hsplit
    exact dropWhile_head_not isJSWhiteSpace s.data c _ hsplit
  · intro c init h
    have h2 : (jsTrim s).data = ((s.data.dropWhile isJSWhiteSpace).reverse.dropWhile
      isJSWhiteSpace).reverse := rfl
    rw [h2] at h
    have h3 := congrArg List.reverse h
    rw [List.reverse_reverse, List.reverse_append, List.reverse_singleton,
      List.singleton_append] at h3
    exact dropWhile_head_not isJSWhiteSpace _ c _ h3

theorem getOwn_map_trimIfString (props : List (String × JSValue)) (key : String) :
    getOwn (props.map (fun kv => (kv.1, trimIfString kv.2))) key
      = trimIfString (getOwn props key) := by
  induction props with
  | nil => rfl
  | cons e rest ih =>
    obtain ⟨k, v⟩ := e
    by_cases hk : k = key
    · simp [getOwn, hk]
    · simp [getOwn, hk, ih]

/-- C14: `sanitizeInput` always calls the next handler, and for a body that is
an object it keeps the keys and their order, replaces every top-level string
value by that string without its leading and trailing white space, and leaves
every other value as it is, strings nested in objects or arrays included. -/
theorem sanitizeInput_trims_top_level (body : JSValue) (props : List (String × JSValue)) :
    (sanitizeInput body).2 = Outcome.next ∧
    ∃ props2, (sanitizeInput (.obj props)).1 = .obj props2 ∧
      objectKeys props2 = objectKeys props ∧
      ∀ key,
        (∀ s, getOwn props key = .str s →
          ∃ pre mid post, getOwn props2 key = .str (String.mk mid) ∧
            s.data = pre ++ mid ++ post ∧
            (∀ c ∈ pre, isJSWhiteSpace c = true) ∧ (∀ c ∈ post, isJSWhiteSpace c = true) ∧
            (∀ c rest, mid = c :: rest → isJSWhiteSpace c = false) ∧
            (∀ c init, mid = init ++ [c] → isJSWhiteSpace c = false)) ∧
        ((∀ s, getOwn props key ≠ .str s) → getOwn props2 key = getOwn props key) := by
  constructor
  · cases body <;> rfl
  · refine ⟨props.map (fun kv : String × JSValue => (kv.1, trimIfString kv.2)), rfl, ?_, ?_⟩
    · simp [objectKeys, List.map_map, Function.comp_def]
    · intro key
      rw [getOwn_map_trimIfString]
      constructor
      · intro s hs
        obtain ⟨pre, post, h1, h2, h3, h4, h5⟩ := jsTrim_spec s
        exact ⟨pre, (jsTrim s).data, post, by rw [hs]; rfl, h1, h2, h3, h4, h5⟩
      · intro hns
        cases hv : getOwn props key with
        | str s => exact absurd hv (hns s)
        | _ => rfl

/-! ## C15: the shape of failure responses -/

/-- C15, as stated, fails: the unknown-route response of `notFoundMiddleware`
has the fields error, path and method, and neither details nor timestamp. -/
theorem notFoundMiddleware_shape_differs :
    bodyKeys (notFoundMiddleware (.str "/api/unknown") (.str "GET")).body
      = ["error", "path", "method"] ∧
    "details" ∉ bodyKeys (notFoundMiddleware (.str "/api/unknown") (.str "GET")).body ∧
    "timestamp" ∉ bodyKeys (notFoundMiddleware (.str "/api/unknown") (.str "GET")).body ∧
    bodyKeys (notFoundMiddleware (.str "/api/unknown") (.str "GET")).body
      ≠ ["error", "details", "timestamp"] := by
  decide

/-- C15, amended: the internal-failure response of `errorMiddleware` is an
object with exactly the fields error, details and timestamp, sent with the
declared status of the failure (its `statusCode`, when that is truthy) or with
500; error and details are the message of the failure, or `Internal server
error` and `Unknown error` when it has none, and timestamp is the clock value.
The unknown-route response of `notFoundMiddleware` is an object with the
fields error, path and method, sent with status 404. -/
theorem failure_response_shapes (error path method : JSValue) (isoTime : String)
    (herr : truthy error = true) :
    (∃ statusCode message status body,
      getMember error "statusCode" = some statusCode ∧
      getMember error "message" = some message ∧
      errorMiddleware error isoTime = some (status, body) ∧
      (truthy statusCode = true → status = statusCode) ∧
      (truthy statusCode = false → status = .num 500) ∧
      bodyKeys body = ["error", "details", "timestamp"] ∧
      (truthy message = true →
        bodyField body "error" = message ∧ bodyField body "details" = message) ∧
      (truthy message = false →
        bodyField body "error" = .str "Internal server error" ∧
        bodyField body "details" = .str "Unknown error") ∧
      bodyField body "timestamp" = .str isoTime) ∧
    (notFoundMiddleware path method).status = 404 ∧
    bodyKeys (notFoundMiddleware path method).body = ["error", "path", "method"] ∧
    bodyField (notFoundMiddleware path method).body "error" = .str "Route not found" ∧
    bodyField (notFoundMiddleware path method).body "path" = path ∧
    bodyField (notFoundMiddleware path method).body "method" = method := by
  obtain ⟨sc, hsc⟩ := getMember_of_truthy herr "statusCode"
  obtain ⟨msg, hmsg⟩ := getMember_of_truthy herr "message"
  refine ⟨⟨sc, msg, jsOr sc HTTP_STATUS_INTERNAL_ERROR,
    .obj [("error", jsOr (jsOr msg (.str "Internal server error")) (.str "An error occurred")),
          ("details", jsOr msg (.str "Unknown error")),
          ("timestamp", .str isoTime)], hsc, hmsg, ?_, ?_, ?_, rfl, ?_, ?_, rfl⟩,
    rfl, rfl, rfl, rfl, rfl⟩
  · simp only [errorMiddleware, createErrorResponse, hsc, hmsg]
  · intro h
    simp only [jsOr, h, if_true]
  · intro h
    simp only [jsOr, h, Bool.false_eq_true, if_false]
    rfl
  · intro h
    constructor
    · show jsOr (jsOr msg (.str "Internal server error")) (.str "An error occurred") = msg
      simp only [jsOr, h, if_true]
    · show jsOr msg (.str "Unknown error") = msg
      simp only [jsOr, h, if_true]
  · intro h
    constructor
    · show jsOr (jsOr msg (.str "Internal server error")) (.str "An error occurred")
        = .str "Internal server error"
      simp only [jsOr, h, Bool.false_eq_true, if_false]
      rfl
    · show jsOr msg (.str "Unknown error") = .str "Unknown error"
      simp only [jsOr, h, Bool.false_eq_true, if_false]

/-- C15 at a concrete input: a failure that declares status 503, with a
message. -/
theorem failure_response_shapes_witness :
    (∃ statusCode message status body,
      getMember (.obj [("message", .str "boom"), ("statusCode", .num 503)]) "statusCode"
        = some statusCode ∧
      getMember (.obj [("message", .str "boom"), ("statusCode", .num 503)]) "message"
        = some message ∧
      errorMiddleware (.obj [("message", .str "boom"), ("statusCode", .num 503)]) "t1"
        = some (status, body) ∧
      (truthy statusCode = true → status = statusCode) ∧
      (truthy statusCode = false → status = .num 500) ∧
      bodyKeys body = ["error", "details", "timestamp"] ∧
      (truthy message = true →
        bodyField body "error" = message ∧ bodyField body "details" = message) ∧
      (truthy message = false →
        bodyField body "error" = .str "Internal server error" ∧
        bodyField body "details" = .str "Unknown error") ∧
      bodyField body "timestamp" = .str "t1") ∧
    (notFoundMiddleware (.str "/api/unknown") (.str "GET")).status = 404 ∧
    bodyKeys (notFoundMiddleware (.str "/api/unknown") (.str "GET")).body
      = ["error", "path", "method"] ∧
    bodyField (notFoundMiddleware (.str "/api/unknown") (.str "GET")).body "error"
      = .str "Route not found" ∧
    bodyField (notFoundMiddleware (.str "/api/unknown") (.str "GET")).body "path"
      = .str "/api/unknown" ∧
    bodyField (notFoundMiddleware (.str "/api/unknown") (.str "GET")).body "method"
      = .str "GET" :=
  failure_response_shapes (.obj [("message", .str "boom"), ("statusCode", .num 503)])
    (.str "/api/unknown") (.str "GET") "t1" rfl
/-! ## C16: verification does not change the store -/

/-- The fields of a verify response other than `verification_time` do not
depend on the clock. -/
theorem verifyHandler_clock_independent (sha256hex : String → String) (iso1 iso2 : String)
    (store : MockStore) (reqBody : JSValue) (key : String) (hkey : key ≠ "verification_time") :
    (verifyHandler sha256hex none iso1 store reqBody).field key
      = (verifyHandler sha256hex none iso2 store reqBody).field key := by
  have hk : ("verification_time" = key) = False := by
    simp only [eq_iff_iff, iff_false]
    exact fun h => hkey h.symm
  unfold verifyHandler
  split
  · split
    · rfl
    · split
      · rfl
      · split
        · rfl
        · simp only [Response.field, getOwn, hk, if_false]
  · rfl

/-- C16: in local mode a verify request leaves the fallback store as it found
it, so no decision is added, removed or overwritten, and the same request
repeated against the store it left answers with the same is_valid,
provided_fingerprint and stored_fingerprint. -/
theorem verify_leaves_store (sha256hex : String → String) (iso1 iso2 : String)
    (store : MockStore) (reqBody : JSValue) :
    (verifyStep sha256hex iso1 store reqBody).1 = store ∧
    (∀ d, mapGet (verifyStep sha256hex iso1 store reqBody).1 d = mapGet store d) ∧
    (verifyStep sha256hex iso2 (verifyStep sha256hex iso1 store reqBody).1 reqBody).1 = store ∧
    (verifyStep sha256hex iso2 (verifyStep sha256hex iso1 store reqBody).1 reqBody).2.field
        "is_valid"
      = (verifyStep sha256hex iso1 store reqBody).2.field "is_valid" ∧
    (verifyStep sha256hex iso2 (verifyStep sha256hex iso1 store reqBody).1 reqBody).2.field
        "provided_fingerprint"
      = (verifyStep sha256hex iso1 store reqBody).2.field "provided_fingerprint" ∧
    (verifyStep sha256hex iso2 (verifyStep sha256hex iso1 store reqBody).1 reqBody).2.field
        "stored_fingerprint"
      = (verifyStep sha256hex iso1 store reqBody).2.field "stored_fingerprint" ∧
    (verifyStep sha256hex iso2 (verifyStep sha256hex iso1 store reqBody).1 reqBody).2.status
      = (verifyStep sha256hex iso1 store reqBody).2.status := by
  refine ⟨rfl, fun _ => rfl, rfl, ?_, ?_, ?_, ?_⟩
  · exact verifyHandler_clock_independent sha256hex iso2 iso1 store reqBody _ (by decide)
  · exact verifyHandler_clock_independent sha256hex iso2 iso1 store reqBody _ (by decide)
  · exact verifyHandler_clock_independent sha256hex iso2 iso1 store reqBody _ (by decide)
  · show (verifyHandler sha256hex none iso2 store reqBody).status
      = (verifyHandler sha256hex none iso1 store reqBody).status
    unfold verifyHandler
    split
    · split
      · rfl
      · split
        · rfl
        · split <;> rfl
    · rfl
/-! ## C17: the key order inside inference_params reaches the digest -/

/-- C17: there are two model-metadata values with equal model_id and
model_checksum whose inference_params hold the same keys and values in a
different key order, for which the canonical string that `generateFingerprint`
hashes is different. -/
theorem canonicalString_params_order :
    ∃ params1 params2 : List (String × JSValue),
      params1.Perm params2 ∧ (objectKeys params1).Nodup ∧
      (∀ key, getOwn params1 key = getOwn params2 key) ∧
      canonicalString "ab12" (.str "Low risk")
          (.obj [("model_id", .str "radiology-v1.0"), ("model_checksum", .str "abc123"),
            ("inference_params", .obj params1)])
        ≠ canonicalString "ab12" (.str "Low risk")
          (.obj [("model_id", .str "radiology-v1.0"), ("model_checksum", .str "abc123"),
            ("inference_params", .obj params2)]) ∧
      canonicalString "ab12" (.str "Low risk")
          (.obj [("model_id", .str "radiology-v1.0"), ("model_checksum", .str "abc123"),
            ("inference_params", .obj params1)])
        = some ("\x7b\"inference_params\":\"\x7b\\\"temperature\\\":0,\\\"max_length\\\":512\x7d\","
          ++ "\"input_hash\":\"ab12\",\"model_checksum\":\"abc123\","
          ++ "\"model_id\":\"radiology-v1.0\",\"output_value\":\"Low risk\"\x7d") :=
  ⟨[("temperature", .num 0), ("max_length", .num 512)],
    [("max_length", .num 512), ("temperature", .num 0)],
    List.Perm.swap _ _ _, by decide,
    fun key => getOwn_perm (List.Perm.swap _ _ _) (by decide) key,
    by decide, by rfl⟩
/-! ## C18: the sliding-window bound -/

theorem rateLimit_getD_other (limiter : RateLimiter) (counts : RequestCounts)
    (who other : String) (now : Int) (hne : other ≠ who) :
    (countsGet (rateLimit limiter counts who now).1 other).getD []
      = (countsGet counts other).getD [] := by
  rw [rateLimit_eq]
  split
  · exact getD_ensure counts who other
  · simp only [countsGet_countsSet_other _ _ _ _ hne]
    exact getD_ensure counts who other

theorem rateLimit_rejected (limiter : RateLimiter) (counts : RequestCounts) (ip : String)
    (now : Int)
    (h : ((recentRequests limiter ((countsGet counts ip).getD []) now).length : Int)
      ≥ limiter.maxRequestsValue) :
    (rateLimit limiter counts ip now).2.isNext = false ∧
    (countsGet (rateLimit limiter counts ip now).1 ip).getD [] = (countsGet counts ip).getD [] := by
  rw [rateLimit_eq, if_pos h]
  exact ⟨rfl, getD_ensure counts ip ip⟩

theorem rateLimit_accepted (limiter : RateLimiter) (counts : RequestCounts) (ip : String)
    (now : Int)
    (h : ¬ ((recentRequests limiter ((countsGet counts ip).getD []) now).length : Int)
      ≥ limiter.maxRequestsValue) :
    (rateLimit limiter counts ip now).2.isNext = true ∧
    (countsGet (rateLimit limiter counts ip now).1 ip).getD []
      = recentRequests limiter ((countsGet counts ip).getD []) now ++ [now] := by
  rw [rateLimit_eq, if_neg h]
  refine ⟨rfl, ?_⟩
  simp only [countsGet_countsSet_self]
  rfl

/-- The invariant behind the sliding-window bound.  `accepted` are the
timestamps the identity had accepted before `checks`, `lo` a time no later than
the remaining checks; the recorded sequence and `accepted` agree on every
window that a remaining check can look at. -/
theorem acceptedTimes_window_bound (limiter : RateLimiter) (hW : 0 < limiter.windowMsValue)
    (ip : String) :
    ∀ (checks : List (String × Int)) (counts : RequestCounts) (accepted : List Int) (lo : Int),
      (∀ now, lo ≤ now →
        ((countsGet counts ip).getD []).countP (fun s => decide (s > now - limiter.windowMsValue))
          = accepted.countP (fun s => decide (s > now - limiter.windowMsValue))) →
      (∀ t, ((accepted.countP (fun s => decide (t - limiter.windowMsValue < s ∧ s ≤ t)) : Nat)
        : Int) ≤ limiter.maxRequestsValue) →
      (∀ c ∈ checks, lo ≤ c.2) →
      checks.Pairwise (fun a b => a.2 ≤ b.2) →
      ∀ t, (((accepted ++ acceptedTimes ip checks (rateLimitRun limiter counts checks).2).countP
        (fun s => decide (t - limiter.windowMsValue < s ∧ s ≤ t)) : Nat) : Int)
        ≤ limiter.maxRequestsValue
  | [], counts, accepted, lo, _, hbound, _, _ => by
      intro t
      simpa [acceptedTimes, rateLimitRun] using hbound t
  | (who, now) :: rest, counts, accepted, lo, hagree, hbound, hlo, hsorted => by
      have hnow : lo ≤ now := hlo (who, now) (List.mem_cons_self _ _)
      have hs2 := List.pairwise_cons.mp hsorted
      have hrestlo : ∀ c ∈ rest, now ≤ c.2 := fun c hc => hs2.1 c hc
      have hrun : (rateLimitRun limiter counts ((who, now) :: rest)).2
          = (rateLimit limiter counts who now).2
            :: (rateLimitRun limiter (rateLimit limiter counts who now).1 rest).2 := rfl
      rw [hrun]
      -- the step leaves the agreement in place when the identity records nothing
      have hkeep : (countsGet (rateLimit limiter counts who now).1 ip).getD []
            = (countsGet counts ip).getD [] →
          ∀ t, (((accepted ++ acceptedTimes ip rest
            (rateLimitRun limiter (rateLimit limiter counts who now).1 rest).2).countP
            (fun s => decide (t - limiter.windowMsValue < s ∧ s ≤ t)) : Nat) : Int)
            ≤ limiter.maxRequestsValue := by
        intro hsame
        exact acceptedTimes_window_bound limiter hW ip rest _ accepted now
          (by intro now2 h2; rw [hsame]; exact hagree now2 (le_trans hnow h2))
          hbound hrestlo hs2.2
      by_cases hwho : who = ip
      · subst hwho
        by_cases hfull : ((recentRequests limiter ((countsGet counts who).getD []) now).length
            : Int) ≥ limiter.maxRequestsValue
        · obtain ⟨hrej, hsame⟩ := rateLimit_rejected limiter counts who now hfull
          simp only [acceptedTimes, hrej, Bool.false_eq_true, and_false, if_false]
          exact hkeep hsame
        · obtain ⟨hacc, hseq⟩ := rateLimit_accepted limiter counts who now hfull
          simp only [acceptedTimes, hacc, and_self, if_true]
          have hcount : (accepted.countP
              (fun s => decide (s > now - limiter.windowMsValue)) : Int)
              < limiter.maxRequestsValue := by
            rw [← hagree now hnow, List.countP_eq_length_filter]
            exact lt_of_not_ge hfull
          have ih := acceptedTimes_window_bound limiter hW who rest
            (rateLimit limiter counts who now).1 (accepted ++ [now]) now
            (by
              intro now2 h2
              rw [hseq, List.countP_append, List.countP_append, recentRequests,
                List.countP_filter]
              congr 1
              rw [← hagree now2 (le_trans hnow h2)]
              apply List.countP_congr
              intro s _
              simp only [gt_iff_lt, Bool.and_eq_true, decide_eq_true_eq]
              constructor
              · intro h; exact h.1
              · intro h; exact ⟨h, by omega⟩)
            (by
              intro t
              rw [List.countP_append]
              by_cases hin : t - limiter.windowMsValue < now ∧ now ≤ t
              · have hle : accepted.countP
                    (fun s => decide (t - limiter.windowMsValue < s ∧ s ≤ t))
                    ≤ accepted.countP (fun s => decide (s > now - limiter.windowMsValue)) := by
                  apply List.countP_mono_left
                  intro s _ hs
                  simp only [decide_eq_true_eq] at hs ⊢
                  omega
                simp only [List.countP_cons, List.countP_nil, hin, and_self, decide_True,
                  if_true]
                push_cast
                omega
              · have h0 : List.countP
                    (fun s => decide (t - limiter.windowMsValue < s ∧ s ≤ t)) [now] = 0 := by
                  simp [List.countP_cons, hin]
                rw [h0]
                simpa using hbound t)
            hrestlo hs2.2
          intro t
          have := ih t
          simpa [List.append_assoc] using this
      · have hsame := rateLimit_getD_other limiter counts who ip now (fun h => hwho h.symm)
        simp only [acceptedTimes, hwho, false_and, if_false]
        exact hkeep hsame

/-- C18: for a window W > 0, a maximum M >= 1 and every sequence of checks made
at non-decreasing times against a fresh limiter, for every identity and every
time `t` the number of that identity's accepted checks with timestamp in the
interval (t - W, t] is at most M, whatever the other identities do in
between. -/
theorem rateLimit_sliding_window (W M : Int) (hW : 0 < W) (hM : 1 ≤ M)
    (checks : List (String × Int)) (hsorted : checks.Pairwise (fun a b => a.2 ≤ b.2))
    (ip : String) (t : Int) :
    (((acceptedTimes ip checks
        (rateLimitRun (createRateLimiter (some W) (some M)) [] checks).2).countP
      (fun s => decide (t - W < s ∧ s ≤ t)) : Nat) : Int) ≤ M := by
  have hw : (createRateLimiter (some W) (some M)).windowMsValue = W := by
    simp [createRateLimiter, orDefault, hW.ne']
  have hm : (createRateLimiter (some W) (some M)).maxRequestsValue = M := by
    have : M ≠ 0 := by omega
    simp [createRateLimiter, orDefault, this]
  generalize createRateLimiter (some W) (some M) = limiter at hw hm ⊢
  subst hw hm
  cases checks with
  | nil => simp [acceptedTimes]; omega
  | cons c rest =>
    have hs2 := List.pairwise_cons.mp hsorted
    have h := acceptedTimes_window_bound limiter hW ip (c :: rest) [] [] c.2
      (by intro now _; rfl)
      (by intro t2; simp; omega)
      (by
        intro x hx
        rcases List.mem_cons.mp hx with h1 | h1
        · rw [h1]
        · exact hs2.1 x h1)
      hsorted t
    simpa using h

/-- C18 at a concrete input: window 1000 ms, maximum 2, two identities taking
turns; the interval examined ends at 1100. -/
theorem rateLimit_sliding_window_witness :
    (((acceptedTimes "10.0.0.1"
        [("10.0.0.1", 0), ("10.0.0.2", 10), ("10.0.0.1", 100), ("10.0.0.1", 200),
          ("10.0.0.2", 300), ("10.0.0.1", 1050), ("10.0.0.1", 1100)]
        (rateLimitRun (createRateLimiter (some 1000) (some 2)) []
          [("10.0.0.1", 0), ("10.0.0.2", 10), ("10.0.0.1", 100), ("10.0.0.1", 200),
            ("10.0.0.2", 300), ("10.0.0.1", 1050), ("10.0.0.1", 1100)]).2).countP
      (fun s => decide ((1100 : Int) - 1000 < s ∧ s ≤ 1100)) : Nat) : Int) ≤ 2 :=
  rateLimit_sliding_window 1000 2 (by decide) (by decide)
    [("10.0.0.1", 0), ("10.0.0.2", 10), ("10.0.0.1", 100), ("10.0.0.1", 200),
      ("10.0.0.2", 300), ("10.0.0.1", 1050), ("10.0.0.1", 1100)]
    (by decide) "10.0.0.1" 1100

end VerifiableAI
